import Mathlib

/-!
Shallow embedding of the per-interface NDP state machine of
`pkg/tcpip/network/ipv6/ndp.go` (gVisor netstack), together with proofs
about its configuration validation, DAD start/stop, Router Advertisement
handling, router/on-link prefix tables, SLAAC lifetime refresh, state
cleanup and the Router Solicitation burst.

Modelling conventions:
* `time.Duration` and monotonic `time.Time` are embedded as `Int`
  (nanoseconds), as in Go.
* Go's zero `time.Time{}` sentinel (used by `ndp.go` for "valid/preferred
  forever") is embedded as `none : Option Time`.
* `tcpip.Address` is opaque (`Nat`); predicates on addresses
  (`header.IsV6UnicastAddress`, ...) and all external collaborators
  (the NDP dispatcher's boolean replies, the parent endpoint's address
  table, IID generation) live in an `Env` record of oracle functions that
  each operation receives, since those live outside `ndp.go`.
* Go maps are embedded as association lists with `mapLookup` / `mapInsert`
  (replacing) / `mapErase`.
* A `tcpip.Job` is embedded by its scheduled delay: `Option Duration`,
  `none` meaning unscheduled/cancelled; `Job.Cancel` sets `none` and
  `Job.Schedule d` sets `some d`.
* Dispatcher callbacks are recorded as an `Event` trace; `panic` sites in
  `ndp.go` are embedded as `Except.error ()`.
-/

namespace NDP

abbrev Duration := Int
abbrev Time := Int

def nanosecond : Duration := 1
def millisecond : Duration := 1000000
def second : Duration := 1000000000
def minute : Duration := 60 * second
def hour : Duration := 60 * minute

/-! ### Constants of ndp.go (lines 29-197) -/

def defaultRetransmitTimer : Duration := second
def minimumRetransmitTimer : Duration := millisecond
def defaultDupAddrDetectTransmits : Nat := 1
def defaultMaxRtrSolicitations : Nat := 3
def defaultRtrSolicitationInterval : Duration := 4 * second
def defaultMaxRtrSolicitationDelay : Duration := second
def minimumRtrSolicitationInterval : Duration := 500 * millisecond
def minimumMaxRtrSolicitationDelay : Duration := 0
def MaxDiscoveredDefaultRouters : Nat := 10
def MaxDiscoveredOnLinkPrefixes : Nat := 10
def validPrefixLenForAutoGen : Nat := 64
def defaultMaxTempAddrValidLifetime : Duration := 7 * 24 * hour
def defaultMaxTempAddrPreferredLifetime : Duration := 24 * hour
def defaultRegenAdvanceDuration : Duration := 5 * second
def minRegenAdvanceDuration : Duration := 0
def maxSLAACAddrLocalRegenAttempts : Nat := 10
def MinPrefixInformationValidLifetimeForUpdate : Duration := 2 * hour
def MaxDesyncFactor : Duration := 10 * minute
def MinMaxTempAddrPreferredLifetime : Duration :=
  defaultRegenAdvanceDuration + MaxDesyncFactor + hour
def MinMaxTempAddrValidLifetime : Duration := 2 * hour

/-- Modelled from the header package (`header.NDPInfiniteLifetime`, not under
src/): the lifetime value treated as infinite, `(2^32 - 1)` seconds. -/
def NDPInfiniteLifetime : Duration := 4294967295 * second

/-! ### DHCPv6 configuration values (ndp.go lines 207-229).
The Go declaration block starts with a blank `_ = iota` (value 0), so
`DHCPv6NoConfiguration = 1`; the Go zero value 0 of
`DHCPv6ConfigurationFromNDPRA` is distinct from all three named values. -/

abbrev DHCPv6ConfigurationFromNDPRA := Nat

def DHCPv6NoConfiguration : DHCPv6ConfigurationFromNDPRA := 1
def DHCPv6ManagedAddress : DHCPv6ConfigurationFromNDPRA := 2
def DHCPv6OtherConfigurations : DHCPv6ConfigurationFromNDPRA := 3

/-! ### NDPConfigurations (ndp.go lines 332-458) -/

structure NDPConfigurations where
  DupAddrDetectTransmits : Nat
  RetransmitTimer : Duration
  MaxRtrSolicitations : Nat
  RtrSolicitationInterval : Duration
  MaxRtrSolicitationDelay : Duration
  HandleRAs : Bool
  DiscoverDefaultRouters : Bool
  DiscoverOnLinkPrefixes : Bool
  AutoGenGlobalAddresses : Bool
  AutoGenAddressConflictRetries : Nat
  AutoGenTempGlobalAddresses : Bool
  MaxTempAddrValidLifetime : Duration
  MaxTempAddrPreferredLifetime : Duration
  RegenAdvanceDuration : Duration
deriving DecidableEq

/-- ndp.go `DefaultNDPConfigurations` (lines 414-430). -/
def DefaultNDPConfigurations : NDPConfigurations :=
  { DupAddrDetectTransmits := defaultDupAddrDetectTransmits
    RetransmitTimer := defaultRetransmitTimer
    MaxRtrSolicitations := defaultMaxRtrSolicitations
    RtrSolicitationInterval := defaultRtrSolicitationInterval
    MaxRtrSolicitationDelay := defaultMaxRtrSolicitationDelay
    HandleRAs := true
    DiscoverDefaultRouters := true
    DiscoverOnLinkPrefixes := true
    AutoGenGlobalAddresses := true
    AutoGenAddressConflictRetries := 0
    AutoGenTempGlobalAddresses := true
    MaxTempAddrValidLifetime := defaultMaxTempAddrValidLifetime
    MaxTempAddrPreferredLifetime := defaultMaxTempAddrPreferredLifetime
    RegenAdvanceDuration := defaultRegenAdvanceDuration }

/-- ndp.go `validate`, first `if` block (lines 435-437). -/
def validateRetransmitTimer (c : NDPConfigurations) : NDPConfigurations :=
  if c.RetransmitTimer < minimumRetransmitTimer then
    { c with RetransmitTimer := defaultRetransmitTimer } else c

/-- ndp.go `validate`, second `if` block (lines 439-441). -/
def validateRtrSolicitationInterval (c : NDPConfigurations) : NDPConfigurations :=
  if c.RtrSolicitationInterval < minimumRtrSolicitationInterval then
    { c with RtrSolicitationInterval := defaultRtrSolicitationInterval } else c

/-- ndp.go `validate`, third `if` block (lines 443-445). -/
def validateMaxRtrSolicitationDelay (c : NDPConfigurations) : NDPConfigurations :=
  if c.MaxRtrSolicitationDelay < minimumMaxRtrSolicitationDelay then
    { c with MaxRtrSolicitationDelay := defaultMaxRtrSolicitationDelay } else c

/-- ndp.go `validate`, fourth `if` block (lines 447-449). -/
def validateMaxTempAddrValidLifetime (c : NDPConfigurations) : NDPConfigurations :=
  if c.MaxTempAddrValidLifetime < MinMaxTempAddrValidLifetime then
    { c with MaxTempAddrValidLifetime := MinMaxTempAddrValidLifetime } else c

/-- ndp.go `validate`, fifth `if` block (lines 451-453); note it reads the
already-updated `MaxTempAddrValidLifetime`. -/
def validateMaxTempAddrPreferredLifetime (c : NDPConfigurations) : NDPConfigurations :=
  if c.MaxTempAddrPreferredLifetime < MinMaxTempAddrPreferredLifetime ∨
      c.MaxTempAddrValidLifetime < c.MaxTempAddrPreferredLifetime then
    { c with MaxTempAddrPreferredLifetime := MinMaxTempAddrPreferredLifetime } else c

/-- ndp.go `validate`, sixth `if` block (lines 455-457). -/
def validateRegenAdvanceDuration (c : NDPConfigurations) : NDPConfigurations :=
  if c.RegenAdvanceDuration < minRegenAdvanceDuration then
    { c with RegenAdvanceDuration := minRegenAdvanceDuration } else c

/-- ndp.go `(*NDPConfigurations).validate` (lines 434-458), with the Go
in-place field mutations rendered as the sequence of its six `if` blocks. -/
def validate (c : NDPConfigurations) : NDPConfigurations :=
  validateRegenAdvanceDuration
    (validateMaxTempAddrPreferredLifetime
      (validateMaxTempAddrValidLifetime
        (validateMaxRtrSolicitationDelay
          (validateRtrSolicitationInterval
            (validateRetransmitTimer c)))))

/-! ### Addresses, subnets, address endpoints -/

abbrev Address := Nat

structure Subnet where
  id : Address
  prefixLen : Nat
deriving DecidableEq

structure AddressWithPrefix where
  address : Address
  prefixLen : Nat
deriving DecidableEq

/-- Kinds of `stack.AddressEndpoint` relevant to ndp.go (the stack package is
external; only `PermanentTentative` and `Permanent` are inspected). -/
inductive AddressKind where
  | permanentTentative
  | permanent
  | otherKind
deriving DecidableEq

inductive AddressConfigType where
  | static
  | slaac
  | slaacTemp
deriving DecidableEq

/-- Embedding of the `stack.AddressEndpoint` handle owned by NDP for an
address: the fields ndp.go reads/writes through the handle
(`AddressWithPrefix`, `GetKind`/`SetKind`, `Deprecated`/`SetDeprecated`,
`ConfigType`). Go mutates the shared object through the reference; the
embedding threads the updated value back into the owning table. -/
structure AddressEndpoint where
  addrWithPrefix : AddressWithPrefix
  kind : AddressKind
  deprecated : Bool
  configType : AddressConfigType
deriving DecidableEq

inductive TcpipErr where
  | addressFamilyNotSupported
  | transmitError
deriving DecidableEq

/-- Dispatcher callbacks (`NDPDispatcher`, ndp.go lines 233-329) recorded as
an event trace. An event is recorded whenever the callback is invoked,
whether or not a boolean-returning callback vetoes. -/
inductive Event where
  | duplicateAddressDetectionStatus (addr : Address) (resolved : Bool) (err : Option TcpipErr)
  | defaultRouterDiscovered (addr : Address)
  | defaultRouterInvalidated (addr : Address)
  | onLinkPrefixDiscovered (sub : Subnet)
  | onLinkPrefixInvalidated (sub : Subnet)
  | autoGenAddress (addr : AddressWithPrefix)
  | autoGenAddressDeprecated (addr : AddressWithPrefix)
  | autoGenAddressInvalidated (addr : AddressWithPrefix)
  | recursiveDNSServerOption (addrs : List Address) (lifetime : Duration)
  | dnsSearchListOption (domainNames : List String) (lifetime : Duration)
  | dhcpv6Configuration (c : DHCPv6ConfigurationFromNDPRA)
deriving DecidableEq

/-! ### Association-list maps (embedding of Go maps) -/

def mapLookup {K V : Type} [DecidableEq K] : List (K × V) → K → Option V
  | [], _ => none
  | e :: rest, k => if e.1 = k then some e.2 else mapLookup rest k

/-- Insert replaces the value when the key is present (Go map assignment). -/
def mapInsert {K V : Type} [DecidableEq K] (m : List (K × V)) (k : K) (v : V) :
    List (K × V) :=
  if (mapLookup m k).isSome then
    m.map (fun e => if e.1 = k then (k, v) else e)
  else
    (k, v) :: m

def mapErase {K V : Type} [DecidableEq K] (m : List (K × V)) (k : K) :
    List (K × V) :=
  m.filter (fun e => ¬(e.1 = k))

/-! ### NDP state (ndp.go lines 461-605) -/

/-- `dadState` (ndp.go lines 499-508): the job plus the `remaining` counter
captured by the job's closure. The `done` cancellation sentinel is subsumed
by removing the entry (cancellation under the endpoint lock guarantees the
body does not run afterwards). -/
structure DadState where
  remaining : Nat
  job : Option Duration
deriving DecidableEq

structure DefaultRouterState where
  invalidationJob : Option Duration
deriving DecidableEq

structure OnLinkPrefixState where
  invalidationJob : Option Duration
deriving DecidableEq

/-- `tempSLAACAddrState` (ndp.go lines 530-555). -/
structure TempSLAACAddrState where
  deprecationJob : Option Duration
  invalidationJob : Option Duration
  regenJob : Option Duration
  createdAt : Time
  addressEndpoint : AddressEndpoint
  regenerated : Bool
deriving DecidableEq

structure StableAddrState where
  addressEndpoint : Option AddressEndpoint
  localGenerationFailures : Nat
deriving DecidableEq

/-- `slaacPrefixState` (ndp.go lines 558-605). `validUntil`/`preferredUntil`
are `none` exactly when the Go fields hold the zero `time.Time{}`. -/
structure SlaacPrefixState where
  deprecationJob : Option Duration
  invalidationJob : Option Duration
  validUntil : Option Time
  preferredUntil : Option Time
  stableAddr : StableAddrState
  tempAddrs : List (Address × TempSLAACAddrState)
  generationAttempts : Nat
  maxGenerationAttempts : Nat
deriving DecidableEq

/-- `ndpState` (ndp.go lines 461-495). The router-solicitation job is
modelled separately (see `RSState`), and `temporaryIIDHistory` is folded
into the `Env` oracle for temporary-IID generation. -/
structure NdpState where
  configs : NDPConfigurations
  dad : List (Address × DadState)
  defaultRouters : List (Address × DefaultRouterState)
  onLinkPrefixes : List (Subnet × OnLinkPrefixState)
  slaacPrefixes : List (Subnet × SlaacPrefixState)
  dhcpv6Configuration : DHCPv6ConfigurationFromNDPRA
  temporaryAddressDesyncFactor : Duration
deriving DecidableEq

/-- Fresh per-endpoint NDP state: empty tables and the zero value of
`DHCPv6ConfigurationFromNDPRA` (the Go zero value of the struct fields). -/
def initialState (cfg : NDPConfigurations) (desync : Duration) : NdpState :=
  { configs := cfg
    dad := []
    defaultRouters := []
    onLinkPrefixes := []
    slaacPrefixes := []
    dhcpv6Configuration := 0
    temporaryAddressDesyncFactor := desync }

/-- Oracles for everything ndp.go reaches outside its own file: the
dispatcher presence and its boolean replies, header-package predicates,
the protocol/stack flags, the parent endpoint's address table, IID
generation, and the monotonic clock reading taken during the operation. -/
structure Env where
  hasNDPDisp : Bool
  forwarding : Bool
  isV6UnicastAddress : Address → Bool
  isV6LinkLocalAddress : Address → Bool
  linkLocalSubnet : Subnet
  onDefaultRouterDiscovered : Address → Bool
  onOnLinkPrefixDiscovered : Subnet → Bool
  onAutoGenAddress : AddressWithPrefix → Bool
  opaqueIIDEnabled : Bool
  opaqueIIDAddr : Subnet → Nat → Address
  linkAddrIsValidUnicastEthernet : Bool
  eui64Addr : Subnet → Address
  hasPermanentAddress : Address → Bool
  generateTempAddr : Nat → Address → Address
  addedAddrKind : AddressKind
  now : Time

/-- Result of `startDuplicateAddressDetection`: the updated NDP state, the
(possibly re-kinded) address endpoint, the dispatcher trace and the
returned `*tcpip.Error`. -/
structure DadStartResult where
  state : NdpState
  addressEndpoint : AddressEndpoint
  events : List Event
  err : Option TcpipErr
deriving DecidableEq

/-! ### Duplicate Address Detection (ndp.go lines 613-763) -/

/-- ndp.go `startDuplicateAddressDetection` (lines 613-707). The two `panic`
sites (non-tentative endpoint, DAD already running) are `Except.error ()`.
In the `remaining = 0` path the endpoint is promoted to `Permanent` and the
integrator is notified; otherwise a DAD entry is created whose job is
scheduled with delay 0. -/
def startDuplicateAddressDetection (env : Env) (s : NdpState) (addr : Address)
    (addressEndpoint : AddressEndpoint) : Except Unit DadStartResult :=
  if ¬env.isV6UnicastAddress addr then
    .ok { state := s, addressEndpoint := addressEndpoint, events := [],
          err := some .addressFamilyNotSupported }
  else if addressEndpoint.kind ≠ AddressKind.permanentTentative then
    .error ()
  else if (mapLookup s.dad addr).isSome then
    .error ()
  else if s.configs.DupAddrDetectTransmits = 0 then
    .ok { state := s
          addressEndpoint := { addressEndpoint with kind := AddressKind.permanent }
          events := if env.hasNDPDisp then
              [Event.duplicateAddressDetectionStatus addr true none] else []
          err := none }
  else
    let entry : DadState :=
      { remaining := s.configs.DupAddrDetectTransmits, job := some 0 }
    .ok { state := { s with dad := mapInsert s.dad addr entry }
          addressEndpoint := addressEndpoint
          events := []
          err := none }

/-- ndp.go `stopDuplicateAddressDetection` (lines 749-763). -/
def stopDuplicateAddressDetection (env : Env) (s : NdpState) (addr : Address) :
    NdpState × List Event :=
  match mapLookup s.dad addr with
  | none => (s, [])
  | some _ =>
    ({ s with dad := mapErase s.dad addr },
     if env.hasNDPDisp then
       [Event.duplicateAddressDetectionStatus addr false none] else [])

/-! ### Default router table (ndp.go lines 888-934) -/

/-- ndp.go `invalidateDefaultRouter` (lines 888-904). -/
def invalidateDefaultRouter (env : Env) (s : NdpState) (ip : Address) :
    NdpState × List Event :=
  match mapLookup s.defaultRouters ip with
  | none => (s, [])
  | some _ =>
    ({ s with defaultRouters := mapErase s.defaultRouters ip },
     if env.hasNDPDisp then [Event.defaultRouterInvalidated ip] else [])

/-- ndp.go `rememberDefaultRouter` (lines 912-934). -/
def rememberDefaultRouter (env : Env) (s : NdpState) (ip : Address)
    (rl : Duration) : NdpState × List Event :=
  if ¬env.hasNDPDisp then (s, [])
  else if ¬env.onDefaultRouterDiscovered ip then
    (s, [Event.defaultRouterDiscovered ip])
  else
    let entry : DefaultRouterState := { invalidationJob := some rl }
    ({ s with defaultRouters := mapInsert s.defaultRouters ip entry },
     [Event.defaultRouterDiscovered ip])

/-! ### On-link prefix table (ndp.go lines 942-1040) -/

/-- ndp.go `rememberOnLinkPrefix` (lines 942-966); the invalidation job is
created but left unscheduled when the lifetime is infinite. -/
def rememberOnLinkPrefix (env : Env) (s : NdpState) (sub : Subnet)
    (l : Duration) : NdpState × List Event :=
  if ¬env.hasNDPDisp then (s, [])
  else if ¬env.onOnLinkPrefixDiscovered sub then
    (s, [Event.onLinkPrefixDiscovered sub])
  else
    let entry : OnLinkPrefixState :=
      { invalidationJob := if l < NDPInfiniteLifetime then some l else none }
    ({ s with onLinkPrefixes := mapInsert s.onLinkPrefixes sub entry },
     [Event.onLinkPrefixDiscovered sub])

/-- ndp.go `invalidateOnLinkPrefix` (lines 971-987). -/
def invalidateOnLinkPrefix (env : Env) (s : NdpState) (sub : Subnet) :
    NdpState × List Event :=
  match mapLookup s.onLinkPrefixes sub with
  | none => (s, [])
  | some _ =>
    ({ s with onLinkPrefixes := mapErase s.onLinkPrefixes sub },
     if env.hasNDPDisp then [Event.onLinkPrefixInvalidated sub] else [])

/-- Wire fields of a Prefix Information option read by ndp.go. -/
structure PrefixInfo where
  subnet : Subnet
  onLinkFlag : Bool
  autonomousFlag : Bool
  validLifetime : Duration
  preferredLifetime : Duration
deriving DecidableEq

/-- ndp.go `handleOnLinkPrefixInformation` (lines 996-1040). -/
def handleOnLinkPrefixInformation (env : Env) (s : NdpState) (pi : PrefixInfo) :
    NdpState × List Event :=
  let sub := pi.subnet
  let vl := pi.validLifetime
  match mapLookup s.onLinkPrefixes sub with
  | none =>
    if vl = 0 then (s, [])
    else if s.configs.DiscoverOnLinkPrefixes ∧
        s.onLinkPrefixes.length < MaxDiscoveredOnLinkPrefixes then
      rememberOnLinkPrefix env s sub vl
    else (s, [])
  | some _ =>
    if vl = 0 then invalidateOnLinkPrefix env s sub
    else
      let entry : OnLinkPrefixState :=
        { invalidationJob := if vl < NDPInfiniteLifetime then some vl else none }
      ({ s with onLinkPrefixes := mapInsert s.onLinkPrefixes sub entry }, [])

/-! ### SLAAC engine (ndp.go lines 1049-1444 and 1601-1731) -/

/-- ndp.go `deprecateSLAACAddress` (lines 1607-1616), acting on the shared
address-endpoint handle: a no-op if the address is already deprecated,
otherwise it marks it deprecated and notifies the dispatcher. -/
def deprecateSLAACAddressEp (env : Env) (e : AddressEndpoint) :
    AddressEndpoint × List Event :=
  if e.deprecated then (e, [])
  else
    ({ e with deprecated := true },
     if env.hasNDPDisp then
       [Event.autoGenAddressDeprecated e.addrWithPrefix] else [])

/-- Modelled from the spec: `(*endpoint).removePermanentEndpointLocked` is
not under src/. Per §4.6 (Invalidation), removing a SLAAC (stable or
temporary) address from the endpoint with cascading invalidation disabled
notifies the integrator with `OnAutoGenAddressInvalidated` and performs no
further NDP-state changes. -/
def removePermanentEndpointNotify (env : Env) (addr : AddressWithPrefix) :
    List Event :=
  if env.hasNDPDisp then [Event.autoGenAddressInvalidated addr] else []

/-- ndp.go `cleanupTempSLAACAddrResources` (lines 1724-1731): cancel the
three jobs, drop the handle and delete the map entry. -/
def cleanupTempSLAACAddrResources (tempAddrs : List (Address × TempSLAACAddrState))
    (tempAddr : Address) : List (Address × TempSLAACAddrState) :=
  mapErase tempAddrs tempAddr

/-- ndp.go `invalidateTempSLAACAddr` (lines 1683-1691): remove the address
from the endpoint (notifying the integrator) and clean up its resources. -/
def invalidateTempSLAACAddr (env : Env)
    (tempAddrs : List (Address × TempSLAACAddrState)) (tempAddr : Address)
    (tempAddrState : TempSLAACAddrState) :
    List (Address × TempSLAACAddrState) × List Event :=
  (cleanupTempSLAACAddrResources tempAddrs tempAddr,
   removePermanentEndpointNotify env tempAddrState.addressEndpoint.addrWithPrefix)

/-- ndp.go `cleanupSLAACPrefixResources` (lines 1665-1678), acting on the
`slaacPrefixes` table: invalidate every temporary address of the entry,
drop the stable handle, cancel the prefix jobs and delete the entry. -/
def cleanupSLAACPrefixResources (env : Env)
    (slaacPrefixes : List (Subnet × SlaacPrefixState)) (sub : Subnet)
    (st : SlaacPrefixState) :
    List (Subnet × SlaacPrefixState) × List Event :=
  let evs := st.tempAddrs.foldl
    (fun acc e =>
      acc ++ (invalidateTempSLAACAddr env st.tempAddrs e.1 e.2).2) []
  (mapErase slaacPrefixes sub, evs)

/-- ndp.go `invalidateSLAACPrefix` (lines 1621-1631): clean up the prefix
resources, then remove the stable address from the endpoint (which
notifies the integrator) when one is present. -/
def invalidateSLAACPrefix (env : Env)
    (slaacPrefixes : List (Subnet × SlaacPrefixState)) (sub : Subnet)
    (st : SlaacPrefixState) :
    List (Subnet × SlaacPrefixState) × List Event :=
  let r := cleanupSLAACPrefixResources env slaacPrefixes sub st
  match st.stableAddr.addressEndpoint with
  | some e => (r.1, r.2 ++ removePermanentEndpointNotify env e.addrWithPrefix)
  | none => r

/-- ndp.go `addAndAcquireSLAACAddr` (lines 1160-1178): skip when no
dispatcher is registered, invoke `OnAutoGenAddress` (recorded as an event)
which may veto, then add the permanent address to the endpoint. The add
itself is external (`addAndAcquirePermanentAddressLocked`); the kind of
the returned endpoint comes from the `Env` oracle, and an add error is a
panic in ndp.go so the model treats the add as succeeding. -/
def addAndAcquireSLAACAddr (env : Env) (addr : AddressWithPrefix)
    (configType : AddressConfigType) (deprecated : Bool) :
    Option AddressEndpoint × List Event :=
  if ¬env.hasNDPDisp then (none, [])
  else if ¬env.onAutoGenAddress addr then (none, [Event.autoGenAddress addr])
  else
    (some { addrWithPrefix := addr
            kind := env.addedAddrKind
            deprecated := deprecated
            configType := configType },
     [Event.autoGenAddress addr])

/-- The generation loop of ndp.go `generateSLAACAddr` (lines 1201-1250),
with `fuel` counting the remaining local-regeneration attempts (the Go
loop runs `i` from 0 and gives up at `maxSLAACAddrLocalRegenAttempts`).
Returns the updated prefix state (its `localGenerationFailures` counter
grows on local conflicts) and the generated address, if any. -/
def generateSLAACAddrLoop (env : Env) (sub : Subnet) (ps : SlaacPrefixState) :
    Nat → SlaacPrefixState × Option AddressWithPrefix
  | 0 => (ps, none)
  | fuel + 1 =>
    let dadCounter := ps.generationAttempts + ps.stableAddr.localGenerationFailures
    if env.opaqueIIDEnabled then
      let a := env.opaqueIIDAddr sub dadCounter
      if env.hasPermanentAddress a then
        generateSLAACAddrLoop env sub
          { ps with stableAddr :=
              { ps.stableAddr with localGenerationFailures :=
                  ps.stableAddr.localGenerationFailures + 1 } } fuel
      else
        (ps, some { address := a, prefixLen := validPrefixLenForAutoGen })
    else if dadCounter = 0 then
      if ¬env.linkAddrIsValidUnicastEthernet then (ps, none)
      else
        let a := env.eui64Addr sub
        if env.hasPermanentAddress a then
          generateSLAACAddrLoop env sub
            { ps with stableAddr :=
                { ps.stableAddr with localGenerationFailures :=
                    ps.stableAddr.localGenerationFailures + 1 } } fuel
        else
          (ps, some { address := a, prefixLen := validPrefixLenForAutoGen })
    else (ps, none)

/-- ndp.go `generateSLAACAddr` (lines 1187-1259). Panics (`.error ()`) when
the prefix already has a stable address. The deprecated flag passed to the
add is `time.Since(state.preferredUntil) >= 0`; when `preferredUntil` is
the zero `time.Time{}` (embedded `none`), Go's saturating `Time.Sub`
makes that comparison true. -/
def generateSLAACAddr (env : Env) (sub : Subnet) (ps : SlaacPrefixState) :
    Except Unit (SlaacPrefixState × List Event × Bool) :=
  if ps.stableAddr.addressEndpoint.isSome then .error ()
  else if ps.generationAttempts = ps.maxGenerationAttempts then .ok (ps, [], false)
  else
    match generateSLAACAddrLoop env sub ps maxSLAACAddrLocalRegenAttempts with
    | (ps1, none) => .ok (ps1, [], false)
    | (ps1, some generatedAddr) =>
      let dep := match ps1.preferredUntil with
        | none => true
        | some pu => 0 ≤ env.now - pu
      match addAndAcquireSLAACAddr env generatedAddr AddressConfigType.slaac dep with
      | (none, evs) => .ok (ps1, evs, false)
      | (some addressEndpoint, evs) =>
        .ok ({ ps1 with
                stableAddr := { ps1.stableAddr with
                  addressEndpoint := some addressEndpoint }
                generationAttempts := ps1.generationAttempts + 1 },
             evs, true)

/-- The generation loop of ndp.go `generateTempSLAACAddr` (lines 1348-1359):
try up to `maxSLAACAddrLocalRegenAttempts` temporary IIDs (the hash
history advances on every call, modelled by the attempt index `i`),
skipping addresses the IPv6 endpoint already owns. -/
def genTempAddrLoop (env : Env) (stableAddr : Address) :
    Nat → Nat → Option Address
  | 0, _ => none
  | fuel + 1, i =>
    let a := env.generateTempAddr i stableAddr
    if env.hasPermanentAddress a then genTempAddrLoop env stableAddr fuel (i + 1)
    else some a

/-- ndp.go `generateTempSLAACAddr` (lines 1288-1431). Returns the updated
prefix state, the dispatcher trace, and whether a new address was
generated. Dereferencing a missing stable address (a nil-pointer panic in
Go) is `.error ()`. -/
def generateTempSLAACAddr (env : Env) (cfg : NDPConfigurations)
    (desync : Duration) (sub : Subnet) (ps0 : SlaacPrefixState)
    (resetGenAttempts : Bool) :
    Except Unit (SlaacPrefixState × List Event × Bool) :=
  if ¬cfg.AutoGenTempGlobalAddresses ∨ sub = env.linkLocalSubnet then
    .ok (ps0, [], false)
  else
    let ps := if resetGenAttempts then
        { ps0 with generationAttempts := 0
                   maxGenerationAttempts := cfg.AutoGenAddressConflictRetries + 1 }
      else ps0
    if ps.generationAttempts = ps.maxGenerationAttempts then .ok (ps, [], false)
    else
      match ps.stableAddr.addressEndpoint with
      | none => .error ()
      | some stableEp =>
        let stableAddr := stableEp.addrWithPrefix.address
        let now := env.now
        let vl := match ps.validUntil with
          | none => cfg.MaxTempAddrValidLifetime
          | some vu =>
            if vu - now < cfg.MaxTempAddrValidLifetime then vu - now
            else cfg.MaxTempAddrValidLifetime
        if vl ≤ 0 then .ok (ps, [], false)
        else
          let pl := match ps.preferredUntil with
            | none => cfg.MaxTempAddrPreferredLifetime - desync
            | some pu =>
              if pu - now < cfg.MaxTempAddrPreferredLifetime - desync then pu - now
              else cfg.MaxTempAddrPreferredLifetime - desync
          if pl ≤ cfg.RegenAdvanceDuration then .ok (ps, [], false)
          else
            match genTempAddrLoop env stableAddr maxSLAACAddrLocalRegenAttempts 0 with
            | none => .ok (ps, [], false)
            | some a =>
              let generatedAddr : AddressWithPrefix :=
                { address := a, prefixLen := validPrefixLenForAutoGen }
              match addAndAcquireSLAACAddr env generatedAddr
                  AddressConfigType.slaacTemp false with
              | (none, evs) => .ok (ps, evs, false)
              | (some addressEndpoint, evs) =>
                let st : TempSLAACAddrState :=
                  { deprecationJob := some pl
                    invalidationJob := some vl
                    regenJob := some (pl - cfg.RegenAdvanceDuration)
                    createdAt := now
                    addressEndpoint := addressEndpoint
                    regenerated := false }
                .ok ({ ps with
                        generationAttempts := ps.generationAttempts + 1
                        tempAddrs := mapInsert ps.tempAddrs a st },
                     evs, true)

/-- Accumulator of the temporary-address loop of
`refreshSLAACPrefixLifetimes` (ndp.go lines 1525-1582). -/
structure TempLoopAcc where
  tempAddrs : List (Address × TempSLAACAddrState)
  regenForAddr : Option Address
  allAddressesRegenerated : Bool
  evs : List Event

/-- One iteration of the temporary-address loop of
`refreshSLAACPrefixLifetimes` (ndp.go lines 1527-1582). `ps` carries the
already-updated prefix `validUntil`/`preferredUntil`; job updates and the
endpoint's deprecated flag are written back into the table, which is how
Go's shared job pointers and endpoint reference make them visible. -/
def refreshTempAddrStep (env : Env) (cfg : NDPConfigurations)
    (desync : Duration) (ps : SlaacPrefixState) (now : Time)
    (acc : TempLoopAcc) (entry : Address × TempSLAACAddrState) : TempLoopAcc :=
  let tempAddr := entry.1
  let tas0 := entry.2
  let validUntil0 := tas0.createdAt + cfg.MaxTempAddrValidLifetime
  let validUntil := match ps.validUntil with
    | some vu => if 0 < validUntil0 - vu then vu else validUntil0
    | none => validUntil0
  let newValidLifetime := validUntil - now
  if newValidLifetime ≤ 0 then
    let r := invalidateTempSLAACAddr env acc.tempAddrs tempAddr tas0
    { acc with tempAddrs := r.1, evs := acc.evs ++ r.2 }
  else
    let tas1 := { tas0 with invalidationJob := some newValidLifetime }
    let preferredUntil0 :=
      tas1.createdAt + (cfg.MaxTempAddrPreferredLifetime - desync)
    let preferredUntil := match ps.preferredUntil with
      | some pu => if 0 < preferredUntil0 - pu then pu else preferredUntil0
      | none => preferredUntil0
    let newPreferredLifetime := preferredUntil - now
    let tas2 := { tas1 with deprecationJob := none }
    let depr :=
      if newPreferredLifetime ≤ 0 then
        let r := deprecateSLAACAddressEp env tas2.addressEndpoint
        ({ tas2 with addressEndpoint := r.1 }, r.2)
      else
        ({ tas2 with
            addressEndpoint := { tas2.addressEndpoint with deprecated := false }
            deprecationJob := some newPreferredLifetime },
         ([] : List Event))
    let tas3 := { depr.1 with regenJob := none }
    if tas3.regenerated then
      { acc with tempAddrs := mapInsert acc.tempAddrs tempAddr tas3
                 evs := acc.evs ++ depr.2 }
    else if newPreferredLifetime ≤ cfg.RegenAdvanceDuration then
      { tempAddrs := mapInsert acc.tempAddrs tempAddr tas3
        regenForAddr := some tempAddr
        allAddressesRegenerated := false
        evs := acc.evs ++ depr.2 }
    else
      let tas4 := { tas3 with
        regenJob := some (newPreferredLifetime - cfg.RegenAdvanceDuration) }
      { acc with tempAddrs := mapInsert acc.tempAddrs tempAddr tas4
                 allAddressesRegenerated := false
                 evs := acc.evs ++ depr.2 }

/-- The stable-address deprecation step of `refreshSLAACPrefixLifetimes`
(ndp.go lines 1452-1458): deprecate when `pl == 0`, otherwise clear the
deprecated flag. -/
def refreshStable (env : Env) (stable0 : AddressEndpoint) (pl : Duration) :
    AddressEndpoint × List Event :=
  if pl = 0 then deprecateSLAACAddressEp env stable0
  else ({ stable0 with deprecated := false }, ([] : List Event))

/-- The preferred-lifetime step of `refreshSLAACPrefixLifetimes` (ndp.go
lines 1460-1474): the deprecation job was just cancelled; reschedule it at
`pl` when `pl` is finite and non-zero, and update `preferredUntil`. -/
def refreshPrefixPreferredLifetime (ps : SlaacPrefixState) (now : Time)
    (pl : Duration) : SlaacPrefixState :=
  if pl < NDPInfiniteLifetime then
    { ps with deprecationJob := if pl = 0 then none else some pl
              preferredUntil := some (now + pl) }
  else { ps with preferredUntil := none }

/-- The remaining lifetime `rl` of ndp.go lines 1494-1502: infinite when
`validUntil` is the zero time, else `validUntil - now`. -/
def remainingLifetime (ps : SlaacPrefixState) (now : Time) : Duration :=
  match ps.validUntil with
  | none => NDPInfiniteLifetime
  | some vu => vu - now

/-- The `effectiveVl` computation of ndp.go lines 1504-1508 (RFC 4862
section 5.5.3.e): take the advertised `vl` when it exceeds 2 hours or the
remaining lifetime, else clamp to 2 hours when more than 2 hours remain,
else 0 (meaning: ignore the advertisement). -/
def prefixValidLifetimeEffective (rl vl : Duration) : Duration :=
  if MinPrefixInformationValidLifetimeForUpdate < vl ∨ rl < vl then vl
  else if MinPrefixInformationValidLifetimeForUpdate < rl then
    MinPrefixInformationValidLifetimeForUpdate
  else 0

/-- The valid-lifetime step of `refreshSLAACPrefixLifetimes` (ndp.go lines
1487-1515): an infinite `vl` cancels the invalidation job and zeroes
`validUntil`; otherwise a non-zero `effectiveVl` reschedules invalidation
at `effectiveVl` and sets `validUntil = now + effectiveVl`, and a zero
`effectiveVl` leaves the prefix untouched. -/
def refreshPrefixValidLifetime (ps : SlaacPrefixState) (now : Time)
    (vl : Duration) : SlaacPrefixState :=
  if NDPInfiniteLifetime ≤ vl then
    { ps with invalidationJob := none, validUntil := none }
  else if prefixValidLifetimeEffective (remainingLifetime ps now) vl ≠ 0 then
    { ps with
        invalidationJob := some (prefixValidLifetimeEffective (remainingLifetime ps now) vl)
        validUntil := some (now + prefixValidLifetimeEffective (remainingLifetime ps now) vl) }
  else ps

/-- The post-loop regeneration block of `refreshSLAACPrefixLifetimes`
(ndp.go lines 1584-1598), given the loop's accumulator: when an address
was marked for immediate regeneration or every temporary was already
regenerated, look up the marked address (before generating, as Go's
`if state, ok := prefixState.tempAddrs[regenForAddr]; gen && ok` does),
attempt one fresh temporary generation, and on success mark the looked-up
address as regenerated. -/
def refreshTempAddrsAfterLoop (env : Env) (cfg : NDPConfigurations)
    (desync : Duration) (sub : Subnet) (ps : SlaacPrefixState)
    (acc : TempLoopAcc) : Except Unit (SlaacPrefixState × List Event) :=
  if acc.regenForAddr.isSome ∨ acc.allAddressesRegenerated then
    match generateTempSLAACAddr env cfg desync sub
        { ps with tempAddrs := acc.tempAddrs } true with
    | .error () => .error ()
    | .ok (ps5, evs5, genOK) =>
      match acc.regenForAddr, genOK with
      | some a, true =>
        match mapLookup acc.tempAddrs a with
        | some st =>
          .ok ({ ps5 with tempAddrs :=
                  mapInsert ps5.tempAddrs a { st with regenerated := true } },
               acc.evs ++ evs5)
        | none => .ok (ps5, acc.evs ++ evs5)
      | _, _ => .ok (ps5, acc.evs ++ evs5)
  else .ok ({ ps with tempAddrs := acc.tempAddrs }, acc.evs)

/-- The temporary-address section of `refreshSLAACPrefixLifetimes` (ndp.go
lines 1523-1598): iterate the refresh step over every temporary address,
then run the post-loop regeneration block. -/
def refreshTempAddrs (env : Env) (cfg : NDPConfigurations) (desync : Duration)
    (sub : Subnet) (ps : SlaacPrefixState) (now : Time) :
    Except Unit (SlaacPrefixState × List Event) :=
  refreshTempAddrsAfterLoop env cfg desync sub ps
    (ps.tempAddrs.foldl (refreshTempAddrStep env cfg desync ps now)
      { tempAddrs := ps.tempAddrs, regenForAddr := none
        allAddressesRegenerated := true, evs := [] })

/-- ndp.go `refreshSLAACPrefixLifetimes` (lines 1451-1599): deprecate or
un-deprecate the stable address, cancel the deprecation job and apply the
preferred-lifetime step, apply the RFC 4862 section 5.5.3.e valid-lifetime
step, and, when DAD has completed on the stable address, refresh the
temporary addresses. -/
def refreshStablePrefixState (ps0 : SlaacPrefixState)
    (stable1 : AddressEndpoint) : SlaacPrefixState :=
  { ps0 with
      stableAddr := { ps0.stableAddr with addressEndpoint := some stable1 }
      deprecationJob := none }

def refreshSLAACPrefixLifetimes (env : Env) (cfg : NDPConfigurations)
    (desync : Duration) (sub : Subnet) (ps0 : SlaacPrefixState)
    (pl vl : Duration) : Except Unit (SlaacPrefixState × List Event) :=
  match ps0.stableAddr.addressEndpoint with
  | none => .error ()
  | some stable0 =>
    let depr := refreshStable env stable0 pl
    let ps3 := refreshPrefixValidLifetime
      (refreshPrefixPreferredLifetime (refreshStablePrefixState ps0 depr.1)
        env.now pl) env.now vl
    if depr.1.kind ≠ AddressKind.permanent then .ok (ps3, depr.2)
    else
      match refreshTempAddrs env cfg desync sub ps3 env.now with
      | .error () => .error ()
      | .ok (ps6, evs6) => .ok (ps6, depr.2 ++ evs6)

/-- ndp.go `doSLAAC` (lines 1085-1155): admission of a brand-new SLAAC
prefix, acting on the `slaacPrefixes` table. -/
def doSLAAC (env : Env) (cfg : NDPConfigurations) (desync : Duration)
    (slaacPrefixes : List (Subnet × SlaacPrefixState)) (sub : Subnet)
    (pl vl : Duration) :
    Except Unit (List (Subnet × SlaacPrefixState) × List Event) :=
  if vl = 0 then .ok (slaacPrefixes, [])
  else if sub.prefixLen ≠ validPrefixLenForAutoGen then .ok (slaacPrefixes, [])
  else
    let now := env.now
    let ps0 : SlaacPrefixState :=
      { deprecationJob := none
        invalidationJob := none
        validUntil := none
        preferredUntil := if pl < NDPInfiniteLifetime then some (now + pl) else none
        stableAddr := { addressEndpoint := none, localGenerationFailures := 0 }
        tempAddrs := []
        generationAttempts := 0
        maxGenerationAttempts := cfg.AutoGenAddressConflictRetries + 1 }
    match generateSLAACAddr env sub ps0 with
    | .error () => .error ()
    | .ok (ps1, evs1, genOK) =>
      if ¬genOK then .ok (slaacPrefixes, evs1)
      else
        let ps2 := if pl < NDPInfiniteLifetime ∧ pl ≠ 0 then
            { ps1 with deprecationJob := some pl } else ps1
        let ps3 := if vl < NDPInfiniteLifetime then
            { ps2 with invalidationJob := some vl, validUntil := some (now + vl) }
          else ps2
        match ps3.stableAddr.addressEndpoint with
        | none => .error ()
        | some stableEp =>
          if stableEp.kind = AddressKind.permanent then
            match generateTempSLAACAddr env cfg desync sub ps3 true with
            | .error () => .error ()
            | .ok (ps4, evs4, _) =>
              .ok (mapInsert slaacPrefixes sub ps4, evs1 ++ evs4)
          else .ok (mapInsert slaacPrefixes sub ps3, evs1)

/-- ndp.go `handleAutonomousPrefixInformation` (lines 1049-1077): drop the
PI when `pl > vl` (RFC 4862 section 5.5.3.c), refresh an already-tracked
prefix, otherwise admit it via `doSLAAC` when auto-generation is enabled. -/
def handleAutonomousPrefixInformation (env : Env) (s : NdpState)
    (pi : PrefixInfo) : Except Unit (NdpState × List Event) :=
  let vl := pi.validLifetime
  let pl := pi.preferredLifetime
  if vl < pl then .ok (s, [])
  else
    let sub := pi.subnet
    match mapLookup s.slaacPrefixes sub with
    | some st =>
      match refreshSLAACPrefixLifetimes env s.configs
          s.temporaryAddressDesyncFactor sub st pl vl with
      | .error () => .error ()
      | .ok (st1, evs) =>
        .ok ({ s with slaacPrefixes := mapInsert s.slaacPrefixes sub st1 }, evs)
    | none =>
      if ¬s.configs.AutoGenGlobalAddresses then .ok (s, [])
      else
        match doSLAAC env s.configs s.temporaryAddressDesyncFactor
            s.slaacPrefixes sub pl vl with
        | .error () => .error ()
        | .ok (m, evs) => .ok ({ s with slaacPrefixes := m }, evs)

/-! ### Router Advertisement handling (ndp.go lines 769-883) -/

/-- Wire fields of a Router Advertisement read by ndp.go, with its
options already parsed (wire-format parsing is external). -/
inductive NDPOption where
  | recursiveDNSServer (addrs : List Address) (lifetime : Duration)
  | dnsSearchList (domainNames : List String) (lifetime : Duration)
  | prefixInformation (pi : PrefixInfo)
  | otherOption
deriving DecidableEq

structure RouterAdvert where
  managedAddrConfFlag : Bool
  otherConfFlag : Bool
  routerLifetime : Duration
  options : List NDPOption
deriving DecidableEq

/-- The DHCPv6-signal section of ndp.go `handleRA` (lines 783-800). -/
def handleRADHCPv6 (env : Env) (s : NdpState) (ra : RouterAdvert) :
    NdpState × List Event :=
  if env.hasNDPDisp then
    let configuration :=
      if ra.managedAddrConfFlag then DHCPv6ManagedAddress
      else if ra.otherConfFlag then DHCPv6OtherConfigurations
      else DHCPv6NoConfiguration
    if s.dhcpv6Configuration ≠ configuration then
      ({ s with dhcpv6Configuration := configuration },
       [Event.dhcpv6Configuration configuration])
    else (s, [])
  else (s, [])

/-- The default-router section of ndp.go `handleRA` (lines 803-828). -/
def handleRADefaultRouter (env : Env) (s : NdpState) (ip : Address)
    (rl : Duration) : NdpState × List Event :=
  if s.configs.DiscoverDefaultRouters then
    match mapLookup s.defaultRouters ip with
    | none =>
      if rl ≠ 0 then
        if s.defaultRouters.length < MaxDiscoveredDefaultRouters then
          rememberDefaultRouter env s ip rl
        else (s, [])
      else (s, [])
    | some _ =>
      if rl ≠ 0 then
        let entry : DefaultRouterState := { invalidationJob := some rl }
        ({ s with defaultRouters := mapInsert s.defaultRouters ip entry }, [])
      else invalidateDefaultRouter env s ip
  else (s, [])

/-- One iteration of the options loop of ndp.go `handleRA` (lines 837-882). -/
def handleRAOption (env : Env) (s : NdpState) (opt : NDPOption) :
    Except Unit (NdpState × List Event) :=
  match opt with
  | .recursiveDNSServer addrs lifetime =>
    .ok (s, if env.hasNDPDisp then
      [Event.recursiveDNSServerOption addrs lifetime] else [])
  | .dnsSearchList domainNames lifetime =>
    .ok (s, if env.hasNDPDisp then
      [Event.dnsSearchListOption domainNames lifetime] else [])
  | .otherOption => .ok (s, [])
  | .prefixInformation pi =>
    if env.isV6LinkLocalAddress pi.subnet.id then .ok (s, [])
    else if pi.subnet.prefixLen = 0 then .ok (s, [])
    else
      let r := if pi.onLinkFlag then handleOnLinkPrefixInformation env s pi
        else (s, [])
      if pi.autonomousFlag then
        match handleAutonomousPrefixInformation env r.1 pi with
        | .error () => .error ()
        | .ok (s2, evs2) => .ok (s2, r.2 ++ evs2)
      else .ok r

/-- The options loop of ndp.go `handleRA`. -/
def handleRAOptions (env : Env) : NdpState → List NDPOption →
    Except Unit (NdpState × List Event)
  | s, [] => .ok (s, [])
  | s, opt :: rest =>
    match handleRAOption env s opt with
    | .error () => .error ()
    | .ok (s1, evs1) =>
      match handleRAOptions env s1 rest with
      | .error () => .error ()
      | .ok (s2, evs2) => .ok (s2, evs1 ++ evs2)

/-- ndp.go `handleRA` (lines 769-883): no-op unless `HandleRAs` is set and
the stack is not forwarding; then the DHCPv6 signal, the default-router
update, and the options loop. -/
def handleRA (env : Env) (s : NdpState) (ip : Address) (ra : RouterAdvert) :
    Except Unit (NdpState × List Event) :=
  if ¬s.configs.HandleRAs ∨ env.forwarding then .ok (s, [])
  else
    let r1 := handleRADHCPv6 env s ra
    let r2 := handleRADefaultRouter env r1.1 ip ra.routerLifetime
    match handleRAOptions env r2.1 ra.options with
    | .error () => .error ()
    | .ok (s3, evs3) => .ok (s3, r1.2 ++ r2.2 ++ evs3)

/-! ### SLAAC prefix job bodies (ndp.go lines 1101-1116) -/

/-- Body of the SLAAC prefix deprecation job (ndp.go lines 1101-1108):
panics when the entry is gone, otherwise deprecates the stable address
(through the shared handle, embedded as a write-back). -/
def fireSlaacPrefixDeprecation (env : Env) (s : NdpState) (sub : Subnet) :
    Except Unit (NdpState × List Event) :=
  match mapLookup s.slaacPrefixes sub with
  | none => .error ()
  | some st =>
    match st.stableAddr.addressEndpoint with
    | none => .error ()
    | some e =>
      let r := deprecateSLAACAddressEp env e
      let st1 := { st with stableAddr :=
        { st.stableAddr with addressEndpoint := some r.1 } }
      .ok ({ s with slaacPrefixes := mapInsert s.slaacPrefixes sub st1 }, r.2)

/-- Body of the SLAAC prefix invalidation job (ndp.go lines 1109-1116). -/
def fireSlaacPrefixInvalidation (env : Env) (s : NdpState) (sub : Subnet) :
    Except Unit (NdpState × List Event) :=
  match mapLookup s.slaacPrefixes sub with
  | none => .error ()
  | some st =>
    let r := invalidateSLAACPrefix env s.slaacPrefixes sub st
    .ok ({ s with slaacPrefixes := r.1 }, r.2)

/-! ### Teardown (ndp.go lines 1738-1789) -/

/-- One iteration of the loop of ndp.go `removeSLAACAddresses` (lines
1741-1751): count spared link-local prefixes, invalidate every other
prefix. -/
def removeSLAACStep (env : Env) (keepLinkLocal : Bool)
    (acc : NdpState × Nat × List Event) (e : Subnet × SlaacPrefixState) :
    NdpState × Nat × List Event :=
  if keepLinkLocal ∧ e.1 = env.linkLocalSubnet then
    (acc.1, acc.2.1 + 1, acc.2.2)
  else
    let r := invalidateSLAACPrefix env acc.1.slaacPrefixes e.1 e.2
    ({ acc.1 with slaacPrefixes := r.1 }, acc.2.1, acc.2.2 ++ r.2)

/-- ndp.go `removeSLAACAddresses` (lines 1738-1756): invalidate every SLAAC
prefix, sparing link-local prefixes when `keepLinkLocal`, and assert
(`.error ()` embeds the panic) that only the spared link-local prefixes
remain. -/
def removeSLAACAddresses (env : Env) (s : NdpState) (keepLinkLocal : Bool) :
    Except Unit (NdpState × List Event) :=
  let r := s.slaacPrefixes.foldl (removeSLAACStep env keepLinkLocal) (s, 0, [])
  if r.1.slaacPrefixes.length ≠ r.2.1 then .error () else .ok (r.1, r.2.2)

/-- One iteration of the on-link invalidation loop of ndp.go `cleanupState`
(lines 1772-1774). -/
def cleanupOnLinkStep (env : Env) (acc : NdpState × List Event) (k : Subnet) :
    NdpState × List Event :=
  let r := invalidateOnLinkPrefix env acc.1 k
  (r.1, acc.2 ++ r.2)

/-- One iteration of the default-router invalidation loop of ndp.go
`cleanupState` (lines 1780-1782). -/
def cleanupRouterStep (env : Env) (acc : NdpState × List Event) (k : Address) :
    NdpState × List Event :=
  let r := invalidateDefaultRouter env acc.1 k
  (r.1, acc.2 ++ r.2)

/-- The on-link prefix section of ndp.go `cleanupState` (lines 1772-1778):
invalidate every discovered on-link prefix and assert the table is empty
(`.error ()` embeds the panic). -/
def cleanupOnLinkPrefixes (env : Env) (s1 : NdpState) :
    Except Unit (NdpState × List Event) :=
  if ((s1.onLinkPrefixes.map (fun e => e.1)).foldl (cleanupOnLinkStep env)
      (s1, [])).1.onLinkPrefixes.length ≠ 0 then .error ()
  else .ok ((s1.onLinkPrefixes.map (fun e => e.1)).foldl (cleanupOnLinkStep env)
    (s1, []))

/-- The default-router section of ndp.go `cleanupState` (lines 1780-1786):
invalidate every discovered default router and assert the table is empty. -/
def cleanupDefaultRouters (env : Env) (s2 : NdpState) :
    Except Unit (NdpState × List Event) :=
  if ((s2.defaultRouters.map (fun e => e.1)).foldl (cleanupRouterStep env)
      (s2, [])).1.defaultRouters.length ≠ 0 then .error ()
  else .ok ((s2.defaultRouters.map (fun e => e.1)).foldl (cleanupRouterStep env)
    (s2, []))

/-- ndp.go `cleanupState` (lines 1769-1789): remove SLAAC addresses (keeping
link-local ones iff `hostOnly`), invalidate all on-link prefixes and all
default routers (asserting the tables end up empty), and reset the DHCPv6
signal to the zero value 0 of `DHCPv6ConfigurationFromNDPRA` (line 1788:
`ndp.dhcpv6Configuration = 0`). -/
def cleanupState (env : Env) (s : NdpState) (hostOnly : Bool) :
    Except Unit (NdpState × List Event) :=
  (removeSLAACAddresses env s hostOnly).bind (fun r1 =>
    (cleanupOnLinkPrefixes env r1.1).bind (fun r2 =>
      (cleanupDefaultRouters env r2.1).bind (fun r3 =>
        .ok ({ r3.1 with dhcpv6Configuration := 0 }, r1.2 ++ r2.2 ++ r3.2))))

/-! ### Router Solicitation (ndp.go lines 1795-1885) -/

/-- The router-solicitation job (ndp.go `rtrSolicitJob`) together with the
`remaining` counter captured by its closure. -/
structure RSState where
  jobScheduled : Option Duration
  remaining : Nat
deriving DecidableEq

/-- ndp.go `startSolicitingRouters` (lines 1795-1871): a no-op when the job
already exists or `MaxRtrSolicitations` is zero; otherwise create the job
with `remaining = MaxRtrSolicitations` and schedule it after the random
initial `delay` drawn from `[0, MaxRtrSolicitationDelay)` (the draw is
external randomness, passed in). -/
def startSolicitingRouters (cfg : NDPConfigurations) (delay : Duration)
    (rtrSolicitJob : Option RSState) : Option RSState :=
  match rtrSolicitJob with
  | some st => some st
  | none =>
    if cfg.MaxRtrSolicitations = 0 then none
    else some { jobScheduled := some delay, remaining := cfg.MaxRtrSolicitations }

/-- One firing of the router-solicitation job body (ndp.go lines
1813-1868). Packet construction and transmission are external; `txOk`
says whether `WritePacketToRemote` succeeded. On success `remaining` is
decremented, on failure it is zeroed; the job reschedules itself at
`RtrSolicitationInterval` while `remaining` is non-zero. The returned
`Bool` is whether a Router Solicitation was sent. -/
def rsJobFire (cfg : NDPConfigurations) (txOk : Bool) (st : RSState) :
    RSState × Bool :=
  let remaining := if txOk then st.remaining - 1 else 0
  ({ jobScheduled :=
      if remaining ≠ 0 then some cfg.RtrSolicitationInterval else none
     remaining := remaining },
   txOk)

/-- A burst trace: the job fires once per scheduled deadline, consuming one
transmit outcome per firing; the count of Router Solicitations sent. -/
def runRSBurst (cfg : NDPConfigurations) : RSState → List Bool → Nat
  | _, [] => 0
  | st, txOk :: rest =>
    match st.jobScheduled with
    | none => 0
    | some _ =>
      let r := rsJobFire cfg txOk st
      (if r.2 then 1 else 0) + runRSBurst cfg r.1 rest

/-- ndp.go `stopSolicitingRouters` (lines 1877-1885). -/
def stopSolicitingRouters (rtrSolicitJob : Option RSState) : Option RSState :=
  match rtrSolicitJob with
  | none => none
  | some _ => none

/-! ### Operations of the per-endpoint NDP state machine -/

/-- The externally triggered operations and job firings that act on the
NDP tables: RA handling, the invalidation-job bodies of the router and
on-link tables, the SLAAC prefix jobs, DAD start/stop and teardown. -/
inductive Op where
  | opHandleRA (env : Env) (ip : Address) (ra : RouterAdvert)
  | opFireRouterInvalidation (env : Env) (ip : Address)
  | opFireOnLinkInvalidation (env : Env) (sub : Subnet)
  | opFireSlaacDeprecation (env : Env) (sub : Subnet)
  | opFireSlaacInvalidation (env : Env) (sub : Subnet)
  | opStartDAD (env : Env) (addr : Address) (addressEndpoint : AddressEndpoint)
  | opStopDAD (env : Env) (addr : Address)
  | opCleanup (env : Env) (hostOnly : Bool)

def applyOp (s : NdpState) : Op → Except Unit (NdpState × List Event)
  | .opHandleRA env ip ra => handleRA env s ip ra
  | .opFireRouterInvalidation env ip => .ok (invalidateDefaultRouter env s ip)
  | .opFireOnLinkInvalidation env sub => .ok (invalidateOnLinkPrefix env s sub)
  | .opFireSlaacDeprecation env sub => fireSlaacPrefixDeprecation env s sub
  | .opFireSlaacInvalidation env sub => fireSlaacPrefixInvalidation env s sub
  | .opStartDAD env addr addressEndpoint =>
    match startDuplicateAddressDetection env s addr addressEndpoint with
    | .error () => .error ()
    | .ok r => .ok (r.state, r.events)
  | .opStopDAD env addr => .ok (stopDuplicateAddressDetection env s addr)
  | .opCleanup env hostOnly => cleanupState env s hostOnly

def runOps : NdpState → List Op → Except Unit NdpState
  | s, [] => .ok s
  | s, op :: rest =>
    match applyOp s op with
    | .error () => .error ()
    | .ok (s1, _) => runOps s1 rest

/-! ### Concrete sample data used to evaluate the operations -/

def sampleEnv : Env :=
  { hasNDPDisp := true
    forwarding := false
    isV6UnicastAddress := fun a => a ≠ 0
    isV6LinkLocalAddress := fun _ => false
    linkLocalSubnet := { id := 1000, prefixLen := 64 }
    onDefaultRouterDiscovered := fun _ => true
    onOnLinkPrefixDiscovered := fun _ => true
    onAutoGenAddress := fun _ => true
    opaqueIIDEnabled := true
    opaqueIIDAddr := fun sub i => sub.id + i + 1
    linkAddrIsValidUnicastEthernet := true
    eui64Addr := fun sub => sub.id + 500
    hasPermanentAddress := fun _ => false
    generateTempAddr := fun i a => a + 7000 + i
    addedAddrKind := AddressKind.permanentTentative
    now := 0 }

def sampleState : NdpState := initialState DefaultNDPConfigurations 0

def sampleDeprecatedEp : AddressEndpoint :=
  { addrWithPrefix := { address := 65, prefixLen := 64 }
    kind := AddressKind.permanent
    deprecated := true
    configType := AddressConfigType.slaac }

def sampleTentativeEp : AddressEndpoint :=
  { addrWithPrefix := { address := 65, prefixLen := 64 }
    kind := AddressKind.permanentTentative
    deprecated := false
    configType := AddressConfigType.static }

/-- The SLAAC prefix used in the claim about `refreshSLAACPrefixLifetimes`:
its `validUntil` lies 3 hours in the future of `sampleEnv.now = 0`. -/
def refreshSubnet : Subnet := { id := 64, prefixLen := 64 }

def refreshStableEp : AddressEndpoint :=
  { addrWithPrefix := { address := 65, prefixLen := 64 }
    kind := AddressKind.permanentTentative
    deprecated := false
    configType := AddressConfigType.slaac }

def refreshPrefixState : SlaacPrefixState :=
  { deprecationJob := some hour
    invalidationJob := some (3 * hour)
    validUntil := some (3 * hour)
    preferredUntil := some hour
    stableAddr := { addressEndpoint := some refreshStableEp
                    localGenerationFailures := 0 }
    tempAddrs := []
    generationAttempts := 1
    maxGenerationAttempts := 1 }

def refreshState : NdpState :=
  { sampleState with slaacPrefixes := [(refreshSubnet, refreshPrefixState)] }

def refreshPI (vl : Duration) : PrefixInfo :=
  { subnet := refreshSubnet
    onLinkFlag := false
    autonomousFlag := true
    validLifetime := vl
    preferredLifetime := 30 * minute }

/-- The `validUntil` stored for `refreshSubnet` after handling a PI with
valid lifetime `vl` against `refreshState`. -/
def refreshValidUntilAfter (vl : Duration) : Option (Option Time) :=
  match handleAutonomousPrefixInformation sampleEnv refreshState (refreshPI vl) with
  | .error () => none
  | .ok (s, _) => (mapLookup s.slaacPrefixes refreshSubnet).map
      (fun ps => ps.validUntil)

/-- A populated state used to exercise `cleanupState` concretely. -/
def cleanupSampleState : NdpState :=
  { sampleState with
      defaultRouters := [(11, { invalidationJob := some second })]
      onLinkPrefixes := [({ id := 20, prefixLen := 64 }, { invalidationJob := some second })]
      slaacPrefixes := [(refreshSubnet, refreshPrefixState)]
      dhcpv6Configuration := DHCPv6ManagedAddress }

/-- The stored DHCPv6 signal after `cleanupState` (when it succeeds). -/
def cleanupDhcpv6After (s : NdpState) (hostOnly : Bool) :
    Option DHCPv6ConfigurationFromNDPRA :=
  match cleanupState sampleEnv s hostOnly with
  | .error () => none
  | .ok (s1, _) => some s1.dhcpv6Configuration

def invalidConfig : NDPConfigurations :=
  { DefaultNDPConfigurations with
      MaxTempAddrValidLifetime := 0
      MaxTempAddrPreferredLifetime := 0 }

/-- A full default-router table (10 routers, addresses 1..10). -/
def fullRouters : List (Address × DefaultRouterState) :=
  (List.range MaxDiscoveredDefaultRouters).map
    (fun i => (i + 1, { invalidationJob := some second }))

/-- A full on-link prefix table (10 prefixes). -/
def fullOnLink : List (Subnet × OnLinkPrefixState) :=
  (List.range MaxDiscoveredOnLinkPrefixes).map
    (fun i => ({ id := 100 + i, prefixLen := 64 }, { invalidationJob := some second }))

def fullTablesState : NdpState :=
  { sampleState with
      defaultRouters := fullRouters
      onLinkPrefixes := fullOnLink
      dhcpv6Configuration := DHCPv6NoConfiguration }

/-- A minimal RA from an unknown 11th router with non-zero lifetime. -/
def eleventhRouterRA : RouterAdvert :=
  { managedAddrConfFlag := false
    otherConfFlag := false
    routerLifetime := second
    options := [] }

/-- A PI announcing an unknown 11th on-link prefix with non-zero lifetime. -/
def eleventhOnLinkPI : PrefixInfo :=
  { subnet := { id := 200, prefixLen := 64 }
    onLinkFlag := true
    autonomousFlag := false
    validLifetime := second
    preferredLifetime := 0 }

def c7PI : PrefixInfo :=
  { subnet := { id := 300, prefixLen := 64 }
    onLinkFlag := false
    autonomousFlag := true
    validLifetime := hour
    preferredLifetime := 2 * hour }

/-- The bounded-tables invariant: the default-router and on-link prefix
tables never exceed their caps. -/
def tablesBounded (s : NdpState) : Prop :=
  s.defaultRouters.length ≤ MaxDiscoveredDefaultRouters ∧
  s.onLinkPrefixes.length ≤ MaxDiscoveredOnLinkPrefixes

/-! ## Lemmas -/

theorem mapInsert_length_le {K V : Type} [DecidableEq K]
    (m : List (K × V)) (k : K) (v : V) :
    (mapInsert m k v).length ≤ m.length + 1 := by
  unfold mapInsert
  split
  · simp
  · simp

theorem mapInsert_length_of_mem {K V : Type} [DecidableEq K]
    (m : List (K × V)) (k : K) (v : V) (h : (mapLookup m k).isSome) :
    (mapInsert m k v).length = m.length := by
  unfold mapInsert
  simp [h]

theorem mapErase_length_le {K V : Type} [DecidableEq K]
    (m : List (K × V)) (k : K) :
    (mapErase m k).length ≤ m.length := by
  unfold mapErase
  exact m.length_filter_le _

theorem validateRetransmitTimer_eq (c : NDPConfigurations) :
    validateRetransmitTimer c =
      { c with RetransmitTimer :=
          if c.RetransmitTimer < minimumRetransmitTimer then
            defaultRetransmitTimer else c.RetransmitTimer } := by
  unfold validateRetransmitTimer
  split <;> simp_all

theorem validateRtrSolicitationInterval_eq (c : NDPConfigurations) :
    validateRtrSolicitationInterval c =
      { c with RtrSolicitationInterval :=
          if c.RtrSolicitationInterval < minimumRtrSolicitationInterval then
            defaultRtrSolicitationInterval else c.RtrSolicitationInterval } := by
  unfold validateRtrSolicitationInterval
  split <;> simp_all

theorem validateMaxRtrSolicitationDelay_eq (c : NDPConfigurations) :
    validateMaxRtrSolicitationDelay c =
      { c with MaxRtrSolicitationDelay :=
          if c.MaxRtrSolicitationDelay < minimumMaxRtrSolicitationDelay then
            defaultMaxRtrSolicitationDelay else c.MaxRtrSolicitationDelay } := by
  unfold validateMaxRtrSolicitationDelay
  split <;> simp_all

theorem validateMaxTempAddrValidLifetime_eq (c : NDPConfigurations) :
    validateMaxTempAddrValidLifetime c =
      { c with MaxTempAddrValidLifetime :=
          if c.MaxTempAddrValidLifetime < MinMaxTempAddrValidLifetime then
            MinMaxTempAddrValidLifetime else c.MaxTempAddrValidLifetime } := by
  unfold validateMaxTempAddrValidLifetime
  split <;> simp_all

theorem validateMaxTempAddrPreferredLifetime_eq (c : NDPConfigurations) :
    validateMaxTempAddrPreferredLifetime c =
      { c with MaxTempAddrPreferredLifetime :=
          if c.MaxTempAddrPreferredLifetime < MinMaxTempAddrPreferredLifetime ∨
              c.MaxTempAddrValidLifetime < c.MaxTempAddrPreferredLifetime then
            MinMaxTempAddrPreferredLifetime else c.MaxTempAddrPreferredLifetime } := by
  unfold validateMaxTempAddrPreferredLifetime
  split <;> simp_all

theorem validateRegenAdvanceDuration_eq (c : NDPConfigurations) :
    validateRegenAdvanceDuration c =
      { c with RegenAdvanceDuration :=
          if c.RegenAdvanceDuration < minRegenAdvanceDuration then
            minRegenAdvanceDuration else c.RegenAdvanceDuration } := by
  unfold validateRegenAdvanceDuration
  split <;> simp_all

/-- `validate` leaves `RetransmitTimer` at its input value unless it was
below the minimum, in which case the default is restored. -/
theorem validate_RetransmitTimer (c : NDPConfigurations) :
    (validate c).RetransmitTimer =
      if c.RetransmitTimer < minimumRetransmitTimer then defaultRetransmitTimer
      else c.RetransmitTimer := by
  simp [validate, validateRetransmitTimer_eq, validateRtrSolicitationInterval_eq,
    validateMaxRtrSolicitationDelay_eq, validateMaxTempAddrValidLifetime_eq,
    validateMaxTempAddrPreferredLifetime_eq, validateRegenAdvanceDuration_eq]

theorem validate_RtrSolicitationInterval (c : NDPConfigurations) :
    (validate c).RtrSolicitationInterval =
      if c.RtrSolicitationInterval < minimumRtrSolicitationInterval then
        defaultRtrSolicitationInterval
      else c.RtrSolicitationInterval := by
  simp [validate, validateRetransmitTimer_eq, validateRtrSolicitationInterval_eq,
    validateMaxRtrSolicitationDelay_eq, validateMaxTempAddrValidLifetime_eq,
    validateMaxTempAddrPreferredLifetime_eq, validateRegenAdvanceDuration_eq]

theorem validate_MaxRtrSolicitationDelay (c : NDPConfigurations) :
    (validate c).MaxRtrSolicitationDelay =
      if c.MaxRtrSolicitationDelay < minimumMaxRtrSolicitationDelay then
        defaultMaxRtrSolicitationDelay
      else c.MaxRtrSolicitationDelay := by
  simp [validate, validateRetransmitTimer_eq, validateRtrSolicitationInterval_eq,
    validateMaxRtrSolicitationDelay_eq, validateMaxTempAddrValidLifetime_eq,
    validateMaxTempAddrPreferredLifetime_eq, validateRegenAdvanceDuration_eq]

theorem validate_MaxTempAddrValidLifetime (c : NDPConfigurations) :
    (validate c).MaxTempAddrValidLifetime =
      if c.MaxTempAddrValidLifetime < MinMaxTempAddrValidLifetime then
        MinMaxTempAddrValidLifetime
      else c.MaxTempAddrValidLifetime := by
  simp [validate, validateRetransmitTimer_eq, validateRtrSolicitationInterval_eq,
    validateMaxRtrSolicitationDelay_eq, validateMaxTempAddrValidLifetime_eq,
    validateMaxTempAddrPreferredLifetime_eq, validateRegenAdvanceDuration_eq]

theorem validate_MaxTempAddrPreferredLifetime (c : NDPConfigurations) :
    (validate c).MaxTempAddrPreferredLifetime =
      if c.MaxTempAddrPreferredLifetime < MinMaxTempAddrPreferredLifetime ∨
          (validate c).MaxTempAddrValidLifetime < c.MaxTempAddrPreferredLifetime then
        MinMaxTempAddrPreferredLifetime
      else c.MaxTempAddrPreferredLifetime := by
  rw [validate_MaxTempAddrValidLifetime]
  simp [validate, validateRetransmitTimer_eq, validateRtrSolicitationInterval_eq,
    validateMaxRtrSolicitationDelay_eq, validateMaxTempAddrValidLifetime_eq,
    validateMaxTempAddrPreferredLifetime_eq, validateRegenAdvanceDuration_eq]

theorem validate_RegenAdvanceDuration (c : NDPConfigurations) :
    (validate c).RegenAdvanceDuration =
      if c.RegenAdvanceDuration < minRegenAdvanceDuration then
        minRegenAdvanceDuration
      else c.RegenAdvanceDuration := by
  simp [validate, validateRetransmitTimer_eq, validateRtrSolicitationInterval_eq,
    validateMaxRtrSolicitationDelay_eq, validateMaxTempAddrValidLifetime_eq,
    validateMaxTempAddrPreferredLifetime_eq, validateRegenAdvanceDuration_eq]

theorem mapErase_of_lookup_none {K V : Type} [DecidableEq K]
    (m : List (K × V)) (k : K) (h : mapLookup m k = none) :
    mapErase m k = m := by
  induction m with
  | nil => rfl
  | cons e m ih =>
    unfold mapLookup at h
    by_cases he : e.1 = k
    · rw [if_pos he] at h
      simp at h
    · rw [if_neg he] at h
      have hrec := ih h
      unfold mapErase at hrec ⊢
      rw [List.filter_cons_of_pos (by simpa using he), hrec]

/-- Whether `removeSLAACAddresses` spares an entry of the SLAAC prefix
table: `keepLinkLocal` is set and the prefix is the link-local one. -/
def slaacKeepB (env : Env) (keepLinkLocal : Bool)
    (e : Subnet × SlaacPrefixState) : Bool :=
  keepLinkLocal && decide (e.1 = env.linkLocalSubnet)

theorem slaacKeepB_key (env : Env) (keepLinkLocal : Bool)
    (x e : Subnet × SlaacPrefixState) (h : x.1 = e.1) :
    slaacKeepB env keepLinkLocal x = slaacKeepB env keepLinkLocal e := by
  unfold slaacKeepB
  rw [h]

theorem slaacKeepB_eq_true (env : Env) (keepLinkLocal : Bool)
    (e : Subnet × SlaacPrefixState) :
    slaacKeepB env keepLinkLocal e = true ↔
      keepLinkLocal = true ∧ e.1 = env.linkLocalSubnet := by
  unfold slaacKeepB
  simp

theorem invalidateSLAACPrefix_fst (env : Env)
    (m : List (Subnet × SlaacPrefixState)) (sub : Subnet)
    (st : SlaacPrefixState) :
    (invalidateSLAACPrefix env m sub st).1 = mapErase m sub := by
  unfold invalidateSLAACPrefix cleanupSLAACPrefixResources
  cases st.stableAddr.addressEndpoint <;> rfl

theorem invalidateOnLinkPrefix_onLink (env : Env) (s : NdpState) (sub : Subnet) :
    (invalidateOnLinkPrefix env s sub).1.onLinkPrefixes =
      mapErase s.onLinkPrefixes sub := by
  unfold invalidateOnLinkPrefix
  cases h : mapLookup s.onLinkPrefixes sub with
  | none => exact (mapErase_of_lookup_none _ _ h).symm
  | some v => rfl

theorem invalidateOnLinkPrefix_frame (env : Env) (s : NdpState) (sub : Subnet) :
    (invalidateOnLinkPrefix env s sub).1.defaultRouters = s.defaultRouters ∧
    (invalidateOnLinkPrefix env s sub).1.slaacPrefixes = s.slaacPrefixes ∧
    (invalidateOnLinkPrefix env s sub).1.dhcpv6Configuration = s.dhcpv6Configuration := by
  unfold invalidateOnLinkPrefix
  cases h : mapLookup s.onLinkPrefixes sub <;> exact ⟨rfl, rfl, rfl⟩

theorem invalidateDefaultRouter_routers (env : Env) (s : NdpState) (ip : Address) :
    (invalidateDefaultRouter env s ip).1.defaultRouters =
      mapErase s.defaultRouters ip := by
  unfold invalidateDefaultRouter
  cases h : mapLookup s.defaultRouters ip with
  | none => exact (mapErase_of_lookup_none _ _ h).symm
  | some v => rfl

theorem invalidateDefaultRouter_frame (env : Env) (s : NdpState) (ip : Address) :
    (invalidateDefaultRouter env s ip).1.onLinkPrefixes = s.onLinkPrefixes ∧
    (invalidateDefaultRouter env s ip).1.slaacPrefixes = s.slaacPrefixes ∧
    (invalidateDefaultRouter env s ip).1.dhcpv6Configuration = s.dhcpv6Configuration := by
  unfold invalidateDefaultRouter
  cases h : mapLookup s.defaultRouters ip <;> exact ⟨rfl, rfl, rfl⟩

/-- Characterization of the `removeSLAACAddresses` loop: starting from any
state, the SLAAC table ends as the sub-table of entries whose key is not
erased by a non-spared snapshot entry, the counter grows by the number of
spared snapshot entries, and the other tables are untouched. -/
theorem removeSLAACStep_foldl (env : Env) (keepLL : Bool) :
    ∀ (l : List (Subnet × SlaacPrefixState)) (s : NdpState) (cnt : Nat)
      (evs : List Event),
    (l.foldl (removeSLAACStep env keepLL) (s, cnt, evs)).1.slaacPrefixes =
      s.slaacPrefixes.filter (fun e =>
        !(l.any (fun x => !slaacKeepB env keepLL x && decide (x.1 = e.1)))) ∧
    (l.foldl (removeSLAACStep env keepLL) (s, cnt, evs)).2.1 =
      cnt + l.countP (slaacKeepB env keepLL) ∧
    (l.foldl (removeSLAACStep env keepLL) (s, cnt, evs)).1.defaultRouters =
      s.defaultRouters ∧
    (l.foldl (removeSLAACStep env keepLL) (s, cnt, evs)).1.onLinkPrefixes =
      s.onLinkPrefixes ∧
    (l.foldl (removeSLAACStep env keepLL) (s, cnt, evs)).1.dhcpv6Configuration =
      s.dhcpv6Configuration := by
  intro l
  induction l with
  | nil =>
    intro s cnt evs
    simp [List.foldl]
  | cons x l ih =>
    intro s cnt evs
    rw [List.foldl_cons]
    by_cases hk : keepLL = true ∧ x.1 = env.linkLocalSubnet
    · have hkb : slaacKeepB env keepLL x = true :=
        (slaacKeepB_eq_true env keepLL x).mpr hk
      have hstep : removeSLAACStep env keepLL (s, cnt, evs) x = (s, cnt + 1, evs) := by
        unfold removeSLAACStep
        rw [if_pos hk]
      rw [hstep]
      obtain ⟨h1, h2, h3, h4, h5⟩ := ih s (cnt + 1) evs
      refine ⟨?_, ?_, h3, h4, h5⟩
      · rw [h1]
        apply List.filter_congr
        intro e _
        simp [List.any_cons, hkb]
      · rw [h2, List.countP_cons, hkb]
        simp
        omega
    · have hkb : slaacKeepB env keepLL x = false := by
        cases hbb : slaacKeepB env keepLL x with
        | false => rfl
        | true => exact absurd ((slaacKeepB_eq_true env keepLL x).mp hbb) hk
      have hstep : removeSLAACStep env keepLL (s, cnt, evs) x =
          ({ s with slaacPrefixes := mapErase s.slaacPrefixes x.1 }, cnt,
           evs ++ (invalidateSLAACPrefix env s.slaacPrefixes x.1 x.2).2) := by
        unfold removeSLAACStep
        rw [if_neg hk]
        simp only [invalidateSLAACPrefix_fst]
      rw [hstep]
      obtain ⟨h1, h2, h3, h4, h5⟩ := ih
        { s with slaacPrefixes := mapErase s.slaacPrefixes x.1 } cnt
        (evs ++ (invalidateSLAACPrefix env s.slaacPrefixes x.1 x.2).2)
      refine ⟨?_, ?_, h3, h4, h5⟩
      · rw [h1]
        show List.filter _ (mapErase s.slaacPrefixes x.1) = _
        unfold mapErase
        rw [List.filter_filter]
        apply List.filter_congr
        intro e _
        by_cases hxe : x.1 = e.1
        · simp [List.any_cons, hkb, hxe]
        · have hex : ¬(e.1 = x.1) := fun hcc => hxe hcc.symm
          simp [List.any_cons, hkb, hxe, hex]
      · rw [h2, List.countP_cons, hkb]
        simp

/-- `removeSLAACAddresses` never hits its final assertion: it returns
successfully, every surviving SLAAC prefix is a spared link-local one, and
the router and on-link tables are untouched. -/
theorem removeSLAACAddresses_spec (env : Env) (s : NdpState) (keepLL : Bool) :
    ∃ r, removeSLAACAddresses env s keepLL = .ok r ∧
      (∀ e ∈ r.1.slaacPrefixes, keepLL = true ∧ e.1 = env.linkLocalSubnet) ∧
      r.1.defaultRouters = s.defaultRouters ∧
      r.1.onLinkPrefixes = s.onLinkPrefixes := by
  obtain ⟨h1, h2, h3, h4, h5⟩ :=
    removeSLAACStep_foldl env keepLL s.slaacPrefixes s 0 []
  have hpt : ∀ e ∈ s.slaacPrefixes,
      (!(s.slaacPrefixes.any (fun x =>
        !slaacKeepB env keepLL x && decide (x.1 = e.1)))) =
      slaacKeepB env keepLL e := by
    intro e he
    cases hbb : slaacKeepB env keepLL e with
    | false =>
      have hany : s.slaacPrefixes.any (fun x =>
          !slaacKeepB env keepLL x && decide (x.1 = e.1)) = true :=
        List.any_eq_true.mpr ⟨e, he, by simp [hbb]⟩
      rw [hany]
      rfl
    | true =>
      have hany : s.slaacPrefixes.any (fun x =>
          !slaacKeepB env keepLL x && decide (x.1 = e.1)) = false := by
        rw [List.any_eq_false]
        intro x hx
        by_cases hxe : x.1 = e.1
        · rw [slaacKeepB_key env keepLL x e hxe, hbb]
          simp
        · simp [hxe]
      rw [hany]
      rfl
  rw [List.filter_congr hpt] at h1
  have hlen2 : (s.slaacPrefixes.foldl (removeSLAACStep env keepLL)
        (s, 0, [])).1.slaacPrefixes.length =
      (s.slaacPrefixes.foldl (removeSLAACStep env keepLL) (s, 0, [])).2.1 := by
    rw [h1, h2, ← List.countP_eq_length_filter]
    omega
  refine ⟨((s.slaacPrefixes.foldl (removeSLAACStep env keepLL) (s, 0, [])).1,
    (s.slaacPrefixes.foldl (removeSLAACStep env keepLL) (s, 0, [])).2.2), ?_, ?_, h3, h4⟩
  · unfold removeSLAACAddresses
    rw [if_neg (fun hne => hne hlen2)]
  · intro e he
    rw [h1] at he
    rw [List.mem_filter] at he
    exact (slaacKeepB_eq_true env keepLL e).mp he.2

/-- Invalidating a covering list of on-link prefix keys empties the table
and preserves the other tables. -/
theorem cleanupOnLinkStep_foldl (env : Env) :
    ∀ (ks : List Subnet) (s : NdpState) (evs : List Event),
    (∀ e ∈ s.onLinkPrefixes, e.1 ∈ ks) →
    (ks.foldl (cleanupOnLinkStep env) (s, evs)).1.onLinkPrefixes = [] ∧
    (ks.foldl (cleanupOnLinkStep env) (s, evs)).1.defaultRouters = s.defaultRouters ∧
    (ks.foldl (cleanupOnLinkStep env) (s, evs)).1.slaacPrefixes = s.slaacPrefixes := by
  intro ks
  induction ks with
  | nil =>
    intro s evs hcov
    refine ⟨?_, rfl, rfl⟩
    cases hsl : s.onLinkPrefixes with
    | nil => exact hsl
    | cons a rest =>
      exact absurd (hcov a (hsl ▸ List.mem_cons_self a rest)) (by simp)
  | cons k ks ih =>
    intro s evs hcov
    rw [List.foldl_cons]
    have hstep : cleanupOnLinkStep env (s, evs) k =
        ((invalidateOnLinkPrefix env s k).1,
         evs ++ (invalidateOnLinkPrefix env s k).2) := rfl
    rw [hstep]
    obtain ⟨hfr1, hfr2, hfr3⟩ := invalidateOnLinkPrefix_frame env s k
    have hol := invalidateOnLinkPrefix_onLink env s k
    obtain ⟨h1, h2, h3⟩ := ih (invalidateOnLinkPrefix env s k).1
      (evs ++ (invalidateOnLinkPrefix env s k).2)
      (by intro e he
          rw [hol] at he
          unfold mapErase at he
          rw [List.mem_filter] at he
          have hmem := hcov e he.1
          have hne : ¬(e.1 = k) := by simpa using he.2
          rw [List.mem_cons] at hmem
          rcases hmem with hc | hc
          · exact absurd hc hne
          · exact hc)
    exact ⟨h1, by rw [h2, hfr1], by rw [h3, hfr2]⟩

/-- Invalidating a covering list of default-router keys empties the table
and preserves the other tables. -/
theorem cleanupRouterStep_foldl (env : Env) :
    ∀ (ks : List Address) (s : NdpState) (evs : List Event),
    (∀ e ∈ s.defaultRouters, e.1 ∈ ks) →
    (ks.foldl (cleanupRouterStep env) (s, evs)).1.defaultRouters = [] ∧
    (ks.foldl (cleanupRouterStep env) (s, evs)).1.onLinkPrefixes = s.onLinkPrefixes ∧
    (ks.foldl (cleanupRouterStep env) (s, evs)).1.slaacPrefixes = s.slaacPrefixes := by
  intro ks
  induction ks with
  | nil =>
    intro s evs hcov
    refine ⟨?_, rfl, rfl⟩
    cases hsl : s.defaultRouters with
    | nil => exact hsl
    | cons a rest =>
      exact absurd (hcov a (hsl ▸ List.mem_cons_self a rest)) (by simp)
  | cons k ks ih =>
    intro s evs hcov
    rw [List.foldl_cons]
    have hstep : cleanupRouterStep env (s, evs) k =
        ((invalidateDefaultRouter env s k).1,
         evs ++ (invalidateDefaultRouter env s k).2) := rfl
    rw [hstep]
    obtain ⟨hfr1, hfr2, hfr3⟩ := invalidateDefaultRouter_frame env s k
    have hrt := invalidateDefaultRouter_routers env s k
    obtain ⟨h1, h2, h3⟩ := ih (invalidateDefaultRouter env s k).1
      (evs ++ (invalidateDefaultRouter env s k).2)
      (by intro e he
          rw [hrt] at he
          unfold mapErase at he
          rw [List.mem_filter] at he
          have hmem := hcov e he.1
          have hne : ¬(e.1 = k) := by simpa using he.2
          rw [List.mem_cons] at hmem
          rcases hmem with hc | hc
          · exact absurd hc hne
          · exact hc)
    exact ⟨h1, by rw [h2, hfr1], by rw [h3, hfr2]⟩

theorem cleanupOnLinkPrefixes_spec (env : Env) (s1 : NdpState) :
    ∃ r2, cleanupOnLinkPrefixes env s1 = .ok r2 ∧
      r2.1.onLinkPrefixes = [] ∧
      r2.1.defaultRouters = s1.defaultRouters ∧
      r2.1.slaacPrefixes = s1.slaacPrefixes := by
  obtain ⟨h1, h2, h3⟩ := cleanupOnLinkStep_foldl env
    (s1.onLinkPrefixes.map (fun e => e.1)) s1 []
    (by intro e he
        exact List.mem_map.mpr ⟨e, he, rfl⟩)
  refine ⟨_, ?_, h1, h2, h3⟩
  unfold cleanupOnLinkPrefixes
  rw [if_neg (fun hne => hne (by rw [h1]; rfl))]

theorem cleanupDefaultRouters_spec (env : Env) (s2 : NdpState) :
    ∃ r3, cleanupDefaultRouters env s2 = .ok r3 ∧
      r3.1.defaultRouters = [] ∧
      r3.1.onLinkPrefixes = s2.onLinkPrefixes ∧
      r3.1.slaacPrefixes = s2.slaacPrefixes := by
  obtain ⟨h1, h2, h3⟩ := cleanupRouterStep_foldl env
    (s2.defaultRouters.map (fun e => e.1)) s2 []
    (by intro e he
        exact List.mem_map.mpr ⟨e, he, rfl⟩)
  refine ⟨_, ?_, h1, h2, h3⟩
  unfold cleanupDefaultRouters
  rw [if_neg (fun hne => hne (by rw [h1]; rfl))]

/-- `cleanupState` always succeeds (its assertions hold); afterwards the
router and on-link tables are empty, only spared link-local SLAAC prefixes
remain, and the DHCPv6 signal is 0. -/
theorem cleanupState_spec (env : Env) (s : NdpState) (hostOnly : Bool) :
    ∃ r, cleanupState env s hostOnly = .ok r ∧
      r.1.defaultRouters = [] ∧
      r.1.onLinkPrefixes = [] ∧
      (∀ e ∈ r.1.slaacPrefixes, hostOnly = true ∧ e.1 = env.linkLocalSubnet) ∧
      r.1.dhcpv6Configuration = 0 := by
  obtain ⟨r1, e1, hkeep, hrt1, hol1⟩ := removeSLAACAddresses_spec env s hostOnly
  obtain ⟨r2, e2, ho1, ho2, ho3⟩ := cleanupOnLinkPrefixes_spec env r1.1
  obtain ⟨r3, e3, hr1, hr2, hr3⟩ := cleanupDefaultRouters_spec env r2.1
  refine ⟨({ r3.1 with dhcpv6Configuration := 0 }, r1.2 ++ r2.2 ++ r3.2),
    ?_, hr1, ?_, ?_, rfl⟩
  · unfold cleanupState
    simp only [e1, Except.bind, e2, e3]
  · show r3.1.onLinkPrefixes = []
    rw [hr2, ho1]
  · intro e he
    have he2 : e ∈ r3.1.slaacPrefixes := he
    rw [hr3, ho3] at he2
    exact hkeep e he2

theorem deprecateSLAACAddressEp_fst_kind (env : Env) (e : AddressEndpoint) :
    (deprecateSLAACAddressEp env e).1.kind = e.kind := by
  unfold deprecateSLAACAddressEp
  split <;> rfl

/-- `generateTempSLAACAddr` never panics when the prefix has a stable
address, and it touches neither `validUntil`, `preferredUntil` nor the
stable-address slot. -/
theorem generateTempSLAACAddr_frame (env : Env) (cfg : NDPConfigurations)
    (desync : Duration) (sub : Subnet) (ps : SlaacPrefixState) (reset : Bool)
    (e : AddressEndpoint) (h : ps.stableAddr.addressEndpoint = some e) :
    ∃ r, generateTempSLAACAddr env cfg desync sub ps reset = .ok r ∧
      r.1.validUntil = ps.validUntil ∧ r.1.preferredUntil = ps.preferredUntil ∧
      r.1.stableAddr = ps.stableAddr := by
  unfold generateTempSLAACAddr
  by_cases h0 : ¬cfg.AutoGenTempGlobalAddresses = true ∨ sub = env.linkLocalSubnet
  · rw [if_pos h0]
    exact ⟨_, rfl, rfl, rfl, rfl⟩
  · rw [if_neg h0]
    cases reset with
    | false =>
      simp only [Bool.false_eq_true, if_false, h]
      split
      · exact ⟨_, rfl, rfl, rfl, rfl⟩
      · split
        · exact ⟨_, rfl, rfl, rfl, rfl⟩
        · split
          · exact ⟨_, rfl, rfl, rfl, rfl⟩
          · split
            · exact ⟨_, rfl, rfl, rfl, rfl⟩
            · split
              · exact ⟨_, rfl, rfl, rfl, rfl⟩
              · exact ⟨_, rfl, rfl, rfl, rfl⟩
    | true =>
      simp only [if_true, h]
      split
      · exact ⟨_, rfl, rfl, rfl, rfl⟩
      · split
        · exact ⟨_, rfl, rfl, rfl, rfl⟩
        · split
          · exact ⟨_, rfl, rfl, rfl, rfl⟩
          · split
            · exact ⟨_, rfl, rfl, rfl, rfl⟩
            · split
              · exact ⟨_, rfl, rfl, rfl, rfl⟩
              · exact ⟨_, rfl, rfl, rfl, rfl⟩

theorem refreshPrefixPreferredLifetime_validUntil (ps : SlaacPrefixState)
    (now : Time) (pl : Duration) :
    (refreshPrefixPreferredLifetime ps now pl).validUntil = ps.validUntil := by
  unfold refreshPrefixPreferredLifetime
  split <;> rfl

theorem refreshPrefixPreferredLifetime_stableAddr (ps : SlaacPrefixState)
    (now : Time) (pl : Duration) :
    (refreshPrefixPreferredLifetime ps now pl).stableAddr = ps.stableAddr := by
  unfold refreshPrefixPreferredLifetime
  split <;> rfl

theorem refreshPrefixValidLifetime_stableAddr (ps : SlaacPrefixState)
    (now : Time) (vl : Duration) :
    (refreshPrefixValidLifetime ps now vl).stableAddr = ps.stableAddr := by
  unfold refreshPrefixValidLifetime
  split
  · rfl
  · split <;> rfl

theorem remainingLifetime_congr (ps1 ps2 : SlaacPrefixState) (now : Time)
    (h : ps1.validUntil = ps2.validUntil) :
    remainingLifetime ps1 now = remainingLifetime ps2 now := by
  unfold remainingLifetime
  rw [h]

theorem remainingLifetime_of_validUntil (ps : SlaacPrefixState) (now : Time)
    (d : Duration) (h : ps.validUntil = some (now + d)) :
    remainingLifetime ps now = d := by
  unfold remainingLifetime
  rw [h]
  show now + d - now = d
  ring

theorem refreshPrefixValidLifetime_validUntil_ne (ps : SlaacPrefixState)
    (now : Time) (vl : Duration) (hInf : ¬NDPInfiniteLifetime ≤ vl)
    (hne : prefixValidLifetimeEffective (remainingLifetime ps now) vl ≠ 0) :
    (refreshPrefixValidLifetime ps now vl).validUntil =
      some (now + prefixValidLifetimeEffective (remainingLifetime ps now) vl) := by
  unfold refreshPrefixValidLifetime
  rw [if_neg hInf, if_pos hne]

/-- The post-loop regeneration block never panics when the prefix has a
stable address, and leaves `validUntil` untouched. -/
theorem refreshTempAddrsAfterLoop_frame (env : Env) (cfg : NDPConfigurations)
    (desync : Duration) (sub : Subnet) (ps : SlaacPrefixState)
    (acc : TempLoopAcc) (e : AddressEndpoint)
    (h : ps.stableAddr.addressEndpoint = some e) :
    ∃ r, refreshTempAddrsAfterLoop env cfg desync sub ps acc = .ok r ∧
      r.1.validUntil = ps.validUntil := by
  unfold refreshTempAddrsAfterLoop
  obtain ⟨⟨ps5, evs5, genOK⟩, hgen, hv, hp, hs⟩ :=
    generateTempSLAACAddr_frame env cfg desync sub
      { ps with tempAddrs := acc.tempAddrs } true e h
  by_cases hc : acc.regenForAddr.isSome = true ∨ acc.allAddressesRegenerated = true
  · rw [if_pos hc, hgen]
    cases hra : acc.regenForAddr with
    | none => exact ⟨_, rfl, hv⟩
    | some a =>
      cases genOK with
      | false => exact ⟨_, rfl, hv⟩
      | true =>
        cases hl : mapLookup acc.tempAddrs a with
        | none => exact ⟨(ps5, acc.evs ++ evs5), by simp [hl], hv⟩
        | some st =>
          exact ⟨({ ps5 with tempAddrs := mapInsert ps5.tempAddrs a { st with regenerated := true } }, acc.evs ++ evs5), by simp [hl], hv⟩
  · rw [if_neg hc]
    exact ⟨_, rfl, rfl⟩

theorem refreshTempAddrs_frame (env : Env) (cfg : NDPConfigurations)
    (desync : Duration) (sub : Subnet) (ps : SlaacPrefixState) (now : Time)
    (e : AddressEndpoint) (h : ps.stableAddr.addressEndpoint = some e) :
    ∃ r, refreshTempAddrs env cfg desync sub ps now = .ok r ∧
      r.1.validUntil = ps.validUntil := by
  unfold refreshTempAddrs
  exact refreshTempAddrsAfterLoop_frame env cfg desync sub ps _ e h

/-- `refreshSLAACPrefixLifetimes` with a finite advertised valid lifetime
whose `effectiveVl` is non-zero succeeds and sets
`validUntil = now + effectiveVl`. -/
theorem refreshSLAACPrefixLifetimes_validUntil (env : Env)
    (cfg : NDPConfigurations) (desync : Duration) (sub : Subnet)
    (ps : SlaacPrefixState) (pl vl : Duration) (e : AddressEndpoint)
    (hst : ps.stableAddr.addressEndpoint = some e)
    (hInf : ¬NDPInfiniteLifetime ≤ vl)
    (hne : prefixValidLifetimeEffective (remainingLifetime ps env.now) vl ≠ 0) :
    ∃ r, refreshSLAACPrefixLifetimes env cfg desync sub ps pl vl = .ok r ∧
      r.1.validUntil =
        some (env.now + prefixValidLifetimeEffective (remainingLifetime ps env.now) vl) := by
  unfold refreshSLAACPrefixLifetimes
  simp only [hst]
  have hvu1 : (refreshPrefixPreferredLifetime
      (refreshStablePrefixState ps (refreshStable env e pl).1)
      env.now pl).validUntil = ps.validUntil := by
    rw [refreshPrefixPreferredLifetime_validUntil]
    rfl
  have hrl := remainingLifetime_congr _ ps env.now hvu1
  have hne2 : prefixValidLifetimeEffective (remainingLifetime
      (refreshPrefixPreferredLifetime
        (refreshStablePrefixState ps (refreshStable env e pl).1)
        env.now pl) env.now) vl ≠ 0 := by
    rw [hrl]
    exact hne
  have hv3 := refreshPrefixValidLifetime_validUntil_ne _ env.now vl hInf hne2
  rw [hrl] at hv3
  have hs3 : (refreshPrefixValidLifetime (refreshPrefixPreferredLifetime
      (refreshStablePrefixState ps (refreshStable env e pl).1)
      env.now pl) env.now vl).stableAddr.addressEndpoint =
      some (refreshStable env e pl).1 := by
    rw [refreshPrefixValidLifetime_stableAddr, refreshPrefixPreferredLifetime_stableAddr]
    rfl
  by_cases hk : (refreshStable env e pl).1.kind = AddressKind.permanent
  · rw [if_neg (by simp [hk])]
    obtain ⟨⟨ps6, evs6⟩, hr6, hv6⟩ :=
      refreshTempAddrs_frame env cfg desync sub _ env.now _ hs3
    rw [hr6]
    exact ⟨_, rfl, by rw [hv6, hv3]⟩
  · rw [if_pos hk]
    exact ⟨_, rfl, hv3⟩

/-! ### Bounded-table preservation lemmas -/

theorem handleRADHCPv6_tables (env : Env) (s : NdpState) (ra : RouterAdvert) :
    (handleRADHCPv6 env s ra).1.defaultRouters = s.defaultRouters ∧
    (handleRADHCPv6 env s ra).1.onLinkPrefixes = s.onLinkPrefixes := by
  simp only [handleRADHCPv6]
  split_ifs <;> exact ⟨rfl, rfl⟩

theorem rememberDefaultRouter_tables (env : Env) (s : NdpState) (ip : Address)
    (rl : Duration) (h : s.defaultRouters.length < MaxDiscoveredDefaultRouters) :
    (rememberDefaultRouter env s ip rl).1.defaultRouters.length ≤
      MaxDiscoveredDefaultRouters ∧
    (rememberDefaultRouter env s ip rl).1.onLinkPrefixes = s.onLinkPrefixes := by
  unfold rememberDefaultRouter
  split_ifs
  · exact ⟨le_trans (mapInsert_length_le s.defaultRouters ip _) h, rfl⟩
  · exact ⟨Nat.le_of_lt h, rfl⟩
  · exact ⟨Nat.le_of_lt h, rfl⟩

theorem handleRADefaultRouter_tables (env : Env) (s : NdpState) (ip : Address)
    (rl : Duration) (h : s.defaultRouters.length ≤ MaxDiscoveredDefaultRouters) :
    (handleRADefaultRouter env s ip rl).1.defaultRouters.length ≤
      MaxDiscoveredDefaultRouters ∧
    (handleRADefaultRouter env s ip rl).1.onLinkPrefixes = s.onLinkPrefixes := by
  unfold handleRADefaultRouter
  split
  · split
    · split
      · split
        · exact rememberDefaultRouter_tables env s ip rl (by assumption)
        · exact ⟨h, rfl⟩
      · exact ⟨h, rfl⟩
    · split
      · refine ⟨?_, rfl⟩
        rw [mapInsert_length_of_mem s.defaultRouters ip _ (by simp_all)]
        exact h
      · have h1 := invalidateDefaultRouter_routers env s ip
        have h2 := (invalidateDefaultRouter_frame env s ip).1
        refine ⟨?_, h2⟩
        rw [h1]
        have := mapErase_length_le s.defaultRouters ip
        omega
  · exact ⟨h, rfl⟩

theorem rememberOnLinkPrefix_tables (env : Env) (s : NdpState) (sub : Subnet)
    (l : Duration) (h : s.onLinkPrefixes.length < MaxDiscoveredOnLinkPrefixes) :
    (rememberOnLinkPrefix env s sub l).1.onLinkPrefixes.length ≤
      MaxDiscoveredOnLinkPrefixes ∧
    (rememberOnLinkPrefix env s sub l).1.defaultRouters = s.defaultRouters := by
  unfold rememberOnLinkPrefix
  split_ifs
  · exact ⟨le_trans (mapInsert_length_le s.onLinkPrefixes sub _) h, rfl⟩
  · exact ⟨le_trans (mapInsert_length_le s.onLinkPrefixes sub _) h, rfl⟩
  · exact ⟨Nat.le_of_lt h, rfl⟩
  · exact ⟨Nat.le_of_lt h, rfl⟩

theorem handleOnLinkPrefixInformation_tables (env : Env) (s : NdpState)
    (pi : PrefixInfo) (h : s.onLinkPrefixes.length ≤ MaxDiscoveredOnLinkPrefixes) :
    (handleOnLinkPrefixInformation env s pi).1.onLinkPrefixes.length ≤
      MaxDiscoveredOnLinkPrefixes ∧
    (handleOnLinkPrefixInformation env s pi).1.defaultRouters = s.defaultRouters := by
  cases hl : mapLookup s.onLinkPrefixes pi.subnet with
  | none =>
    simp only [handleOnLinkPrefixInformation, hl]
    split_ifs with h0 hd
    · exact ⟨h, rfl⟩
    · exact rememberOnLinkPrefix_tables env s pi.subnet pi.validLifetime hd.2
    · exact ⟨h, rfl⟩
  | some v =>
    simp only [handleOnLinkPrefixInformation, hl]
    split_ifs with h0
    · have h1 := invalidateOnLinkPrefix_onLink env s pi.subnet
      have h2 := (invalidateOnLinkPrefix_frame env s pi.subnet).1
      refine ⟨?_, h2⟩
      rw [h1]
      have := mapErase_length_le s.onLinkPrefixes pi.subnet
      omega
    all_goals
      refine ⟨?_, rfl⟩
      rw [mapInsert_length_of_mem s.onLinkPrefixes pi.subnet _ (by rw [hl]; rfl)]
      exact h

theorem handleAutonomousPrefixInformation_frame (env : Env) (s : NdpState)
    (pi : PrefixInfo) (s1 : NdpState) (evs : List Event)
    (h : handleAutonomousPrefixInformation env s pi = .ok (s1, evs)) :
    s1.defaultRouters = s.defaultRouters ∧
    s1.onLinkPrefixes = s.onLinkPrefixes := by
  simp only [handleAutonomousPrefixInformation] at h
  split at h
  · cases h
    exact ⟨rfl, rfl⟩
  · split at h
    · split at h
      · cases h
      · cases h
        exact ⟨rfl, rfl⟩
    · split at h
      · cases h
        exact ⟨rfl, rfl⟩
      · split at h
        · cases h
        · cases h
          exact ⟨rfl, rfl⟩

theorem handleRAOption_tables (env : Env) (s : NdpState) (opt : NDPOption)
    (s1 : NdpState) (evs : List Event)
    (hok : handleRAOption env s opt = .ok (s1, evs)) (h : tablesBounded s) :
    tablesBounded s1 := by
  cases opt with
  | recursiveDNSServer addrs lifetime =>
    simp only [handleRAOption] at hok
    cases hok
    exact h
  | dnsSearchList domainNames lifetime =>
    simp only [handleRAOption] at hok
    cases hok
    exact h
  | otherOption =>
    simp only [handleRAOption] at hok
    cases hok
    exact h
  | prefixInformation pi =>
    simp only [handleRAOption] at hok
    split at hok
    · cases hok
      exact h
    · split at hok
      · cases hok
        exact h
      · have hr : (if pi.onLinkFlag then handleOnLinkPrefixInformation env s pi
            else (s, [])).1.onLinkPrefixes.length ≤ MaxDiscoveredOnLinkPrefixes ∧
            (if pi.onLinkFlag then handleOnLinkPrefixInformation env s pi
            else (s, [])).1.defaultRouters = s.defaultRouters := by
          split
          · exact handleOnLinkPrefixInformation_tables env s pi h.2
          · exact ⟨h.2, rfl⟩
        split at hok
        · split at hok
          · cases hok
          · next s2 evs2 heq =>
            cases hok
            obtain ⟨hd, ho⟩ := handleAutonomousPrefixInformation_frame env _ pi _ _ heq
            exact ⟨by rw [hd, hr.2]; exact h.1, by rw [ho]; exact hr.1⟩
        · simp only [Except.ok.injEq, Prod.ext_iff] at hok
          exact ⟨by rw [← hok.1, hr.2]; exact h.1, by rw [← hok.1]; exact hr.1⟩

theorem handleRAOptions_tables (env : Env) (opts : List NDPOption) :
    ∀ (s s1 : NdpState) (evs : List Event),
      handleRAOptions env s opts = .ok (s1, evs) → tablesBounded s →
      tablesBounded s1 := by
  induction opts with
  | nil =>
    intro s s1 evs hok h
    simp only [handleRAOptions] at hok
    cases hok
    exact h
  | cons opt rest ih =>
    intro s s1 evs hok h
    simp only [handleRAOptions] at hok
    split at hok
    · cases hok
    · next s2 evs2 heq =>
      split at hok
      · cases hok
      · next s3 evs3 heq2 =>
        cases hok
        exact ih s2 s1 evs3 heq2 (handleRAOption_tables env s opt s2 evs2 heq h)

theorem handleRA_tables (env : Env) (s : NdpState) (ip : Address)
    (ra : RouterAdvert) (s1 : NdpState) (evs : List Event)
    (hok : handleRA env s ip ra = .ok (s1, evs)) (h : tablesBounded s) :
    tablesBounded s1 := by
  simp only [handleRA] at hok
  split at hok
  · cases hok
    exact h
  · have h1 := handleRADHCPv6_tables env s ra
    have h2 := handleRADefaultRouter_tables env (handleRADHCPv6 env s ra).1 ip
      ra.routerLifetime (by rw [h1.1]; exact h.1)
    have hb : tablesBounded (handleRADefaultRouter env
        (handleRADHCPv6 env s ra).1 ip ra.routerLifetime).1 :=
      ⟨h2.1, by rw [h2.2, h1.2]; exact h.2⟩
    split at hok
    · cases hok
    · next s3 evs3 heq =>
      cases hok
      exact handleRAOptions_tables env ra.options _ s1 evs3 heq hb

theorem fireSlaacPrefixDeprecation_tables (env : Env) (s : NdpState)
    (sub : Subnet) (s1 : NdpState) (evs : List Event)
    (h : fireSlaacPrefixDeprecation env s sub = .ok (s1, evs)) :
    s1.defaultRouters = s.defaultRouters ∧
    s1.onLinkPrefixes = s.onLinkPrefixes := by
  simp only [fireSlaacPrefixDeprecation] at h
  split at h
  · cases h
  · split at h
    · cases h
    · cases h
      exact ⟨rfl, rfl⟩

theorem fireSlaacPrefixInvalidation_tables (env : Env) (s : NdpState)
    (sub : Subnet) (s1 : NdpState) (evs : List Event)
    (h : fireSlaacPrefixInvalidation env s sub = .ok (s1, evs)) :
    s1.defaultRouters = s.defaultRouters ∧
    s1.onLinkPrefixes = s.onLinkPrefixes := by
  simp only [fireSlaacPrefixInvalidation] at h
  split at h
  · cases h
  · cases h
    exact ⟨rfl, rfl⟩

theorem startDuplicateAddressDetection_tables (env : Env) (s : NdpState)
    (addr : Address) (ep : AddressEndpoint) (r : DadStartResult)
    (h : startDuplicateAddressDetection env s addr ep = .ok r) :
    r.state.defaultRouters = s.defaultRouters ∧
    r.state.onLinkPrefixes = s.onLinkPrefixes := by
  simp only [startDuplicateAddressDetection] at h
  split_ifs at h <;> cases h <;> exact ⟨rfl, rfl⟩

theorem stopDuplicateAddressDetection_tables (env : Env) (s : NdpState)
    (addr : Address) :
    (stopDuplicateAddressDetection env s addr).1.defaultRouters =
      s.defaultRouters ∧
    (stopDuplicateAddressDetection env s addr).1.onLinkPrefixes =
      s.onLinkPrefixes := by
  unfold stopDuplicateAddressDetection
  split <;> exact ⟨rfl, rfl⟩

theorem applyOp_tables (s : NdpState) (op : Op) (s1 : NdpState)
    (evs : List Event) (hok : applyOp s op = .ok (s1, evs))
    (h : tablesBounded s) : tablesBounded s1 := by
  cases op with
  | opHandleRA env ip ra =>
    simp only [applyOp] at hok
    exact handleRA_tables env s ip ra s1 evs hok h
  | opFireRouterInvalidation env ip =>
    simp only [applyOp, Except.ok.injEq, Prod.ext_iff] at hok
    have h1 := invalidateDefaultRouter_routers env s ip
    have h2 := (invalidateDefaultRouter_frame env s ip).1
    refine ⟨?_, ?_⟩
    · rw [← hok.1, h1]
      exact le_trans (mapErase_length_le s.defaultRouters ip) h.1
    · rw [← hok.1, h2]
      exact h.2
  | opFireOnLinkInvalidation env sub =>
    simp only [applyOp, Except.ok.injEq, Prod.ext_iff] at hok
    have h1 := invalidateOnLinkPrefix_onLink env s sub
    have h2 := (invalidateOnLinkPrefix_frame env s sub).1
    refine ⟨?_, ?_⟩
    · rw [← hok.1, h2]
      exact h.1
    · rw [← hok.1, h1]
      exact le_trans (mapErase_length_le s.onLinkPrefixes sub) h.2
  | opFireSlaacDeprecation env sub =>
    simp only [applyOp] at hok
    obtain ⟨h1, h2⟩ := fireSlaacPrefixDeprecation_tables env s sub s1 evs hok
    exact ⟨by rw [h1]; exact h.1, by rw [h2]; exact h.2⟩
  | opFireSlaacInvalidation env sub =>
    simp only [applyOp] at hok
    obtain ⟨h1, h2⟩ := fireSlaacPrefixInvalidation_tables env s sub s1 evs hok
    exact ⟨by rw [h1]; exact h.1, by rw [h2]; exact h.2⟩
  | opStartDAD env addr ep =>
    simp only [applyOp] at hok
    split at hok
    · cases hok
    · next r heq =>
      cases hok
      obtain ⟨h1, h2⟩ := startDuplicateAddressDetection_tables env s addr ep r heq
      exact ⟨by rw [h1]; exact h.1, by rw [h2]; exact h.2⟩
  | opStopDAD env addr =>
    simp only [applyOp, Except.ok.injEq, Prod.ext_iff] at hok
    obtain ⟨h1, h2⟩ := stopDuplicateAddressDetection_tables env s addr
    exact ⟨by rw [← hok.1, h1]; exact h.1, by rw [← hok.1, h2]; exact h.2⟩
  | opCleanup env hostOnly =>
    simp only [applyOp] at hok
    obtain ⟨r, hr, hrt, hol, -, -⟩ := cleanupState_spec env s hostOnly
    rw [hok, Except.ok.injEq] at hr
    rw [← hr] at hrt hol
    have hrt' : s1.defaultRouters = [] := hrt
    have hol' : s1.onLinkPrefixes = [] := hol
    exact ⟨by rw [hrt']; exact Nat.zero_le _, by rw [hol']; exact Nat.zero_le _⟩

theorem runOps_tables (ops : List Op) : ∀ (s s1 : NdpState),
    runOps s ops = .ok s1 → tablesBounded s → tablesBounded s1 := by
  induction ops with
  | nil =>
    intro s s1 hok h
    simp only [runOps] at hok
    cases hok
    exact h
  | cons op rest ih =>
    intro s s1 hok h
    simp only [runOps] at hok
    split at hok
    · cases hok
    · next s2 evs2 heq =>
      exact ih s2 s1 hok (applyOp_tables s op s2 evs2 heq h)

theorem initialState_tables (cfg : NDPConfigurations) (desync : Duration) :
    tablesBounded (initialState cfg desync) :=
  ⟨Nat.zero_le _, Nat.zero_le _⟩

/-! ## Claims -/

/-- Claim C10: `deprecateSLAACAddress` is idempotent at the integrator
boundary. Calling it on an endpoint that is already deprecated changes
nothing and emits no `OnAutoGenAddressDeprecated` event, and a second
application after any first application is always such a no-op, so the
deprecation event is delivered at most once per preferred-to-deprecated
transition. -/
theorem c10_deprecate_idempotent :
    (∀ env e, e.deprecated = true → deprecateSLAACAddressEp env e = (e, [])) ∧
    (∀ env e, deprecateSLAACAddressEp env (deprecateSLAACAddressEp env e).1 =
      ((deprecateSLAACAddressEp env e).1, [])) := by
  constructor
  · intro env e h
    simp [deprecateSLAACAddressEp, h]
  · intro env e
    by_cases h : e.deprecated <;> simp [deprecateSLAACAddressEp, h]

/-- Witness for C10 at a concrete deprecated endpoint. -/
theorem c10_deprecate_idempotent_witness :
    sampleDeprecatedEp.deprecated = true ∧
    deprecateSLAACAddressEp sampleEnv sampleDeprecatedEp = (sampleDeprecatedEp, []) :=
  ⟨rfl, c10_deprecate_idempotent.1 sampleEnv sampleDeprecatedEp rfl⟩

/-- Claim C7: a Prefix Information option whose preferred lifetime exceeds
its valid lifetime is silently dropped by
`handleAutonomousPrefixInformation`: the state is returned unchanged and
no dispatcher callback is invoked. -/
theorem c7_autonomous_pi_dropped (env : Env) (s : NdpState) (pi : PrefixInfo)
    (h : pi.validLifetime < pi.preferredLifetime) :
    handleAutonomousPrefixInformation env s pi = .ok (s, []) := by
  simp [handleAutonomousPrefixInformation, h]

/-- Witness for C7 at a concrete PI with `pl = 2h > vl = 1h`. -/
theorem c7_autonomous_pi_dropped_witness :
    c7PI.validLifetime < c7PI.preferredLifetime ∧
    handleAutonomousPrefixInformation sampleEnv sampleState c7PI =
      .ok (sampleState, []) :=
  ⟨by decide, c7_autonomous_pi_dropped sampleEnv sampleState c7PI (by decide)⟩

/-- Claim C6: `startDuplicateAddressDetection` on an address that is not a
unicast IPv6 address fails with `tcpip.ErrAddressFamilyNotSupported` (the
spec's `UnsupportedAddressFamily`) and changes nothing: same NDP state,
untouched endpoint kind, no events. -/
theorem c6_dad_non_unicast (env : Env) (s : NdpState) (addr : Address)
    (addressEndpoint : AddressEndpoint)
    (h : env.isV6UnicastAddress addr = false) :
    startDuplicateAddressDetection env s addr addressEndpoint =
      .ok { state := s, addressEndpoint := addressEndpoint, events := [],
            err := some TcpipErr.addressFamilyNotSupported } := by
  simp [startDuplicateAddressDetection, h]

/-- Witness for C6: address 0 is the sample environment's non-unicast
address. -/
theorem c6_dad_non_unicast_witness :
    sampleEnv.isV6UnicastAddress 0 = false ∧
    startDuplicateAddressDetection sampleEnv sampleState 0 sampleTentativeEp =
      .ok { state := sampleState, addressEndpoint := sampleTentativeEp,
            events := [], err := some TcpipErr.addressFamilyNotSupported } :=
  ⟨by decide,
   c6_dad_non_unicast sampleEnv sampleState 0 sampleTentativeEp (by decide)⟩

/-- Claim C5: with `DupAddrDetectTransmits = 0`, starting DAD on a
`PermanentTentative` unicast address immediately promotes the endpoint to
`Permanent`, notifies the integrator exactly once with
`OnDuplicateAddressDetectionStatus(addr, resolved = true, err = none)`,
creates no DAD entry (the NDP state is unchanged, so no job exists to be
scheduled) and returns success. -/
theorem c5_dad_zero_transmits (env : Env) (s : NdpState) (addr : Address)
    (addressEndpoint : AddressEndpoint)
    (hdisp : env.hasNDPDisp = true)
    (huni : env.isV6UnicastAddress addr = true)
    (hkind : addressEndpoint.kind = AddressKind.permanentTentative)
    (hnew : mapLookup s.dad addr = none)
    (hzero : s.configs.DupAddrDetectTransmits = 0) :
    startDuplicateAddressDetection env s addr addressEndpoint =
      .ok { state := s
            addressEndpoint := { addressEndpoint with kind := AddressKind.permanent }
            events := [Event.duplicateAddressDetectionStatus addr true none]
            err := none } := by
  simp [startDuplicateAddressDetection, hdisp, huni, hkind, hnew, hzero]

/-- Witness for C5 at a concrete tentative endpoint with a zero-transmit
configuration. -/
theorem c5_dad_zero_transmits_witness :
    (initialState { DefaultNDPConfigurations with DupAddrDetectTransmits := 0 }
        0).configs.DupAddrDetectTransmits = 0 ∧
    startDuplicateAddressDetection sampleEnv
      (initialState { DefaultNDPConfigurations with DupAddrDetectTransmits := 0 } 0)
      65 sampleTentativeEp =
      .ok { state := initialState
              { DefaultNDPConfigurations with DupAddrDetectTransmits := 0 } 0
            addressEndpoint := { sampleTentativeEp with kind := AddressKind.permanent }
            events := [Event.duplicateAddressDetectionStatus 65 true none]
            err := none } :=
  ⟨by decide,
   c5_dad_zero_transmits sampleEnv
     (initialState { DefaultNDPConfigurations with DupAddrDetectTransmits := 0 } 0)
     65 sampleTentativeEp (by decide) (by decide) (by decide) (by decide) (by decide)⟩

/-- Claim C9: `stopDuplicateAddressDetection` with an existing DAD entry
removes the entry (its job being cancelled with it) and notifies the
integrator with `resolved = false, err = none`; with no entry it is a
strict no-op. -/
theorem c9_stop_dad :
    (∀ env s addr d, env.hasNDPDisp = true → mapLookup s.dad addr = some d →
      stopDuplicateAddressDetection env s addr =
        ({ s with dad := mapErase s.dad addr },
         [Event.duplicateAddressDetectionStatus addr false none])) ∧
    (∀ env s addr, mapLookup s.dad addr = none →
      stopDuplicateAddressDetection env s addr = (s, [])) := by
  constructor
  · intro env s addr d hdisp h
    simp [stopDuplicateAddressDetection, h, hdisp]
  · intro env s addr h
    simp [stopDuplicateAddressDetection, h]

/-- Witness for C9: a state with one DAD entry, and the same state without
it. -/
theorem c9_stop_dad_witness :
    (mapLookup ({ sampleState with
        dad := [(65, { remaining := 1, job := some 0 })] } : NdpState).dad 65 =
      some { remaining := 1, job := some 0 }) ∧
    stopDuplicateAddressDetection sampleEnv
      { sampleState with dad := [(65, { remaining := 1, job := some 0 })] } 65 =
      ({ { sampleState with dad := [(65, { remaining := 1, job := some 0 })] } with
          dad := mapErase [(65, { remaining := 1, job := some 0 })] 65 },
       [Event.duplicateAddressDetectionStatus 65 false none]) ∧
    mapLookup sampleState.dad 66 = none ∧
    stopDuplicateAddressDetection sampleEnv sampleState 66 = (sampleState, []) :=
  ⟨by decide,
   c9_stop_dad.1 sampleEnv
     { sampleState with dad := [(65, { remaining := 1, job := some 0 })] } 65
     { remaining := 1, job := some 0 } (by decide) (by decide),
   by decide,
   c9_stop_dad.2 sampleEnv sampleState 66 (by decide)⟩

/-- Claim C3 (amended): `validate` replaces `RetransmitTimer`,
`RtrSolicitationInterval` and `MaxRtrSolicitationDelay` by their defaults
when out of range, but clamps an out-of-range `MaxTempAddrValidLifetime`
to the minimum `MinMaxTempAddrValidLifetime` (2 hours, not the 7-day
default), an out-of-range `MaxTempAddrPreferredLifetime` to the minimum
`MinMaxTempAddrPreferredLifetime` (not the 1-day default), and a negative
`RegenAdvanceDuration` to 0. -/
theorem c3_validate_field_rules (c : NDPConfigurations) :
    (validate c).RetransmitTimer =
      (if c.RetransmitTimer < minimumRetransmitTimer then defaultRetransmitTimer
       else c.RetransmitTimer) ∧
    (validate c).RtrSolicitationInterval =
      (if c.RtrSolicitationInterval < minimumRtrSolicitationInterval then
        defaultRtrSolicitationInterval
       else c.RtrSolicitationInterval) ∧
    (validate c).MaxRtrSolicitationDelay =
      (if c.MaxRtrSolicitationDelay < minimumMaxRtrSolicitationDelay then
        defaultMaxRtrSolicitationDelay
       else c.MaxRtrSolicitationDelay) ∧
    (validate c).MaxTempAddrValidLifetime =
      (if c.MaxTempAddrValidLifetime < MinMaxTempAddrValidLifetime then
        MinMaxTempAddrValidLifetime
       else c.MaxTempAddrValidLifetime) ∧
    (validate c).MaxTempAddrPreferredLifetime =
      (if c.MaxTempAddrPreferredLifetime < MinMaxTempAddrPreferredLifetime ∨
          (validate c).MaxTempAddrValidLifetime < c.MaxTempAddrPreferredLifetime then
        MinMaxTempAddrPreferredLifetime
       else c.MaxTempAddrPreferredLifetime) ∧
    (validate c).RegenAdvanceDuration =
      (if c.RegenAdvanceDuration < minRegenAdvanceDuration then
        minRegenAdvanceDuration
       else c.RegenAdvanceDuration) ∧
    MinMaxTempAddrValidLifetime ≠ defaultMaxTempAddrValidLifetime ∧
    MinMaxTempAddrPreferredLifetime ≠ defaultMaxTempAddrPreferredLifetime :=
  ⟨validate_RetransmitTimer c, validate_RtrSolicitationInterval c,
   validate_MaxRtrSolicitationDelay c, validate_MaxTempAddrValidLifetime c,
   validate_MaxTempAddrPreferredLifetime c, validate_RegenAdvanceDuration c,
   by decide, by decide⟩

/-- Counterexample for C3 as stated: a configuration whose
`MaxTempAddrValidLifetime` (0) is below the 2-hour minimum and whose
`MaxTempAddrPreferredLifetime` (0) is out of range validates to the
minimums (2 hours and `RegenAdvance + MaxDesyncFactor + 1h`), not to the
defaults of 7 days and 1 day. -/
theorem c3_validate_counterexample :
    invalidConfig.MaxTempAddrValidLifetime < MinMaxTempAddrValidLifetime ∧
    (validate invalidConfig).MaxTempAddrValidLifetime = MinMaxTempAddrValidLifetime ∧
    (validate invalidConfig).MaxTempAddrValidLifetime ≠ defaultMaxTempAddrValidLifetime ∧
    (validate invalidConfig).MaxTempAddrPreferredLifetime = MinMaxTempAddrPreferredLifetime ∧
    (validate invalidConfig).MaxTempAddrPreferredLifetime ≠ defaultMaxTempAddrPreferredLifetime := by
  exact ⟨by decide, by decide, by decide, by decide, by decide⟩

/-- Claim C2 (amended): after `cleanupState(hostOnly)` returns, every
discovered default router and every on-link prefix has been invalidated
(both tables are empty), every SLAAC prefix has been invalidated except
link-local ones when `hostOnly`, and the stored DHCPv6 signal equals 0 —
the zero value of `DHCPv6ConfigurationFromNDPRA`, which is NOT
`DHCPv6NoConfiguration` (= 1). -/
theorem c2_cleanup_state (env : Env) (s : NdpState) (hostOnly : Bool) :
    ∃ r, cleanupState env s hostOnly = .ok r ∧
      r.1.defaultRouters = [] ∧
      r.1.onLinkPrefixes = [] ∧
      (∀ e ∈ r.1.slaacPrefixes, hostOnly = true ∧ e.1 = env.linkLocalSubnet) ∧
      r.1.dhcpv6Configuration = 0 ∧
      r.1.dhcpv6Configuration ≠ DHCPv6NoConfiguration := by
  obtain ⟨r, h, h1, h2, h3, h4⟩ := cleanupState_spec env s hostOnly
  refine ⟨r, h, h1, h2, h3, h4, ?_⟩
  rw [h4]
  decide

/-- Witness for C2 (amended) at a concretely populated state. -/
theorem c2_cleanup_state_witness :
    ∃ r, cleanupState sampleEnv cleanupSampleState true = .ok r ∧
      r.1.defaultRouters = [] ∧
      r.1.onLinkPrefixes = [] ∧
      (∀ e ∈ r.1.slaacPrefixes, true = true ∧ e.1 = sampleEnv.linkLocalSubnet) ∧
      r.1.dhcpv6Configuration = 0 ∧
      r.1.dhcpv6Configuration ≠ DHCPv6NoConfiguration :=
  c2_cleanup_state sampleEnv cleanupSampleState true

/-- Counterexample for C2 as stated: `cleanupState` stores 0 in
`dhcpv6Configuration` (ndp.go line 1788), and 0 is not
`DHCPv6NoConfiguration` (which is 1, the first non-blank `iota` value). -/
theorem c2_cleanup_counterexample :
    cleanupDhcpv6After cleanupSampleState false = some 0 ∧
    (0 : DHCPv6ConfigurationFromNDPRA) ≠ DHCPv6NoConfiguration := by
  exact ⟨by decide, by decide⟩

/-- Claim C1 (amended): for a SLAAC prefix whose `validUntil` lies 3 hours
past `now`, refreshing via `refreshSLAACPrefixLifetimes` with an
advertised valid lifetime of 1 hour does NOT leave the remaining valid
lifetime at 3 hours: RFC 4862 section 5.5.3.e rule 3 (ndp.go lines
1504-1515) clamps it to 2 hours (`validUntil = now + 2h`). Refreshing
with an advertised valid lifetime of 3 hours sets the remaining valid
lifetime to 3 hours, as the claim states. -/
theorem c1_refresh_two_hour_rule (env : Env) (cfg : NDPConfigurations)
    (desync : Duration) (sub : Subnet) (ps : SlaacPrefixState) (pl : Duration)
    (e : AddressEndpoint)
    (hst : ps.stableAddr.addressEndpoint = some e)
    (hvu : ps.validUntil = some (env.now + 3 * hour)) :
    (∃ r, refreshSLAACPrefixLifetimes env cfg desync sub ps pl hour = .ok r ∧
      r.1.validUntil = some (env.now + 2 * hour)) ∧
    (∃ r, refreshSLAACPrefixLifetimes env cfg desync sub ps pl (3 * hour) = .ok r ∧
      r.1.validUntil = some (env.now + 3 * hour)) := by
  have hrl : remainingLifetime ps env.now = 3 * hour :=
    remainingLifetime_of_validUntil ps env.now (3 * hour) hvu
  constructor
  · have h := refreshSLAACPrefixLifetimes_validUntil env cfg desync sub ps pl hour e hst
      (by decide) (by rw [hrl]; decide)
    rw [hrl] at h
    have he : prefixValidLifetimeEffective (3 * hour) hour = 2 * hour := by decide
    rw [he] at h
    exact h
  · have h := refreshSLAACPrefixLifetimes_validUntil env cfg desync sub ps pl (3 * hour) e hst
      (by decide) (by rw [hrl]; decide)
    rw [hrl] at h
    have he : prefixValidLifetimeEffective (3 * hour) (3 * hour) = 3 * hour := by decide
    rw [he] at h
    exact h

/-- Witness for C1 (amended) at the concrete 3-hours-remaining prefix
state, refreshed through `handleAutonomousPrefixInformation`'s callee. -/
theorem c1_refresh_two_hour_rule_witness :
    refreshPrefixState.stableAddr.addressEndpoint = some refreshStableEp ∧
    refreshPrefixState.validUntil = some (sampleEnv.now + 3 * hour) ∧
    (∃ r, refreshSLAACPrefixLifetimes sampleEnv DefaultNDPConfigurations 0
        refreshSubnet refreshPrefixState (30 * minute) hour = .ok r ∧
      r.1.validUntil = some (sampleEnv.now + 2 * hour)) :=
  ⟨by decide, by decide,
   (c1_refresh_two_hour_rule sampleEnv DefaultNDPConfigurations 0 refreshSubnet
     refreshPrefixState (30 * minute) refreshStableEp (by decide) (by decide)).1⟩

/-- Counterexample for C1 as stated: with `validUntil` 3 hours away
(`sampleEnv.now = 0`), a PI with `vl = 1h` handled by
`handleAutonomousPrefixInformation` leaves `validUntil = 2h`, not the
claimed unchanged 3h (the same PI with `vl = 3h` does give 3h). -/
theorem c1_refresh_counterexample :
    refreshValidUntilAfter hour = some (some (2 * hour)) ∧
    refreshValidUntilAfter (3 * hour) = some (some (3 * hour)) ∧
    (some (2 * hour) : Option Time) ≠ some (3 * hour) := by
  exact ⟨by decide, by decide, by decide⟩

/-! ### Router Solicitation burst lemmas -/

theorem runRSBurst_of_unscheduled (cfg : NDPConfigurations) (st : RSState)
    (h : st.jobScheduled = none) (outcomes : List Bool) :
    runRSBurst cfg st outcomes = 0 := by
  cases outcomes with
  | nil => rfl
  | cons txOk rest => simp [runRSBurst, h]

theorem runRSBurst_cons (cfg : NDPConfigurations) (st : RSState) (txOk : Bool)
    (rest : List Bool) (d : Duration) (h : st.jobScheduled = some d) :
    runRSBurst cfg st (txOk :: rest) =
      (if (rsJobFire cfg txOk st).2 then 1 else 0) +
        runRSBurst cfg (rsJobFire cfg txOk st).1 rest := by
  simp [runRSBurst, h]

theorem rsJobFire_true (cfg : NDPConfigurations) (st : RSState) :
    rsJobFire cfg true st =
      ({ jobScheduled := if st.remaining - 1 ≠ 0 then
            some cfg.RtrSolicitationInterval else none,
         remaining := st.remaining - 1 }, true) := by
  simp [rsJobFire]

theorem rsJobFire_false (cfg : NDPConfigurations) (st : RSState) :
    rsJobFire cfg false st = ({ jobScheduled := none, remaining := 0 }, false) := by
  simp [rsJobFire]

theorem runRSBurst_le_remaining (cfg : NDPConfigurations) (outcomes : List Bool) :
    ∀ st : RSState, (st.jobScheduled.isSome → 1 ≤ st.remaining) →
    runRSBurst cfg st outcomes ≤ st.remaining := by
  induction outcomes with
  | nil =>
    intro st _
    simp [runRSBurst]
  | cons txOk rest ih =>
    intro st hinv
    cases h : st.jobScheduled with
    | none => simp [runRSBurst, h]
    | some d =>
      have h1 : 1 ≤ st.remaining := hinv (by simp [h])
      cases txOk with
      | true =>
        rw [runRSBurst_cons cfg st true rest d h, rsJobFire_true]
        have hrec := ih
          ({ jobScheduled := if st.remaining - 1 ≠ 0 then
                some cfg.RtrSolicitationInterval else none,
             remaining := st.remaining - 1 } : RSState)
          (by intro hs
              by_cases hr : st.remaining - 1 = 0
              · simp only [hr] at hs
                simp at hs
              · show 1 ≤ st.remaining - 1
                omega)
        simp only at hrec ⊢
        simp only [if_true]
        omega
      | false =>
        rw [runRSBurst_cons cfg st false rest d h, rsJobFire_false]
        rw [runRSBurst_of_unscheduled cfg _ rfl rest]
        simp

/-- Claim C8: the router-solicitation burst started by
`startSolicitingRouters` sends at most `MaxRtrSolicitations` Router
Solicitations in total over any trace of job firings; a successful
transmit decrements `remaining` and reschedules at
`RtrSolicitationInterval` exactly while `remaining` stays non-zero; a
transmit error zeroes `remaining`, leaves the job unscheduled and no
further RS is ever sent from that burst. -/
theorem c8_rs_burst :
    (∀ cfg delay st outcomes, startSolicitingRouters cfg delay none = some st →
      runRSBurst cfg st outcomes ≤ cfg.MaxRtrSolicitations) ∧
    (∀ cfg st, 1 ≤ st.remaining →
      (rsJobFire cfg true st).2 = true ∧
      (rsJobFire cfg true st).1.remaining = st.remaining - 1 ∧
      (rsJobFire cfg true st).1.jobScheduled =
        (if st.remaining - 1 ≠ 0 then some cfg.RtrSolicitationInterval else none)) ∧
    (∀ cfg st outcomes,
      (rsJobFire cfg false st).1.remaining = 0 ∧
      (rsJobFire cfg false st).1.jobScheduled = none ∧
      (rsJobFire cfg false st).2 = false ∧
      runRSBurst cfg (rsJobFire cfg false st).1 outcomes = 0) := by
  refine ⟨?start, ?ok, ?fail⟩
  case start =>
    intro cfg delay st outcomes h
    unfold startSolicitingRouters at h
    by_cases hM : cfg.MaxRtrSolicitations = 0
    · simp [hM] at h
    · simp only [hM, if_false] at h
      have hst : st = { jobScheduled := some delay, remaining := cfg.MaxRtrSolicitations } := by
        cases h
        rfl
      subst hst
      have := runRSBurst_le_remaining cfg outcomes
        { jobScheduled := some delay, remaining := cfg.MaxRtrSolicitations }
        (by intro _
            show 1 ≤ cfg.MaxRtrSolicitations
            omega)
      simpa using this
  case ok =>
    intro cfg st h
    refine ⟨rfl, rfl, ?_⟩
    simp [rsJobFire]
  case fail =>
    intro cfg st outcomes
    refine ⟨rfl, by simp [rsJobFire], rfl, ?_⟩
    apply runRSBurst_of_unscheduled
    simp [rsJobFire]

/-- Witness for C8: the default configuration (3 solicitations), a burst
trace of four all-successful firings, and a firing with `remaining = 3`. -/
theorem c8_rs_burst_witness :
    startSolicitingRouters DefaultNDPConfigurations 0 none =
      some { jobScheduled := some 0, remaining := 3 } ∧
    runRSBurst DefaultNDPConfigurations { jobScheduled := some 0, remaining := 3 }
      [true, true, true, true] ≤ DefaultNDPConfigurations.MaxRtrSolicitations ∧
    1 ≤ (3 : Nat) ∧
    (rsJobFire DefaultNDPConfigurations true { jobScheduled := some 0, remaining := 3 }).1.remaining = 2 ∧
    runRSBurst DefaultNDPConfigurations
      (rsJobFire DefaultNDPConfigurations false { jobScheduled := some 0, remaining := 3 }).1
      [true, true] = 0 :=
  ⟨by decide,
   c8_rs_burst.1 DefaultNDPConfigurations 0 { jobScheduled := some 0, remaining := 3 }
     [true, true, true, true] (by decide),
   by decide,
   (c8_rs_burst.2.1 DefaultNDPConfigurations { jobScheduled := some 0, remaining := 3 }
     (by decide)).2.1,
   (c8_rs_burst.2.2 DefaultNDPConfigurations { jobScheduled := some 0, remaining := 3 }
     [true, true]).2.2.2⟩

/-- Claim C4: after any sequence of operations (RA handling, invalidation
and SLAAC job firings, DAD start/stop, teardown) from the initial state,
the default-router table holds at most `MaxDiscoveredDefaultRouters = 10`
entries and the on-link prefix table at most
`MaxDiscoveredOnLinkPrefixes = 10`; when a table is full, an RA announcing
a new (11th) router or on-link prefix with non-zero lifetime leaves the
state unchanged, evicts nothing and produces no Discovered event. -/
theorem c4_bounded_tables :
    (∀ (cfg : NDPConfigurations) (desync : Duration) (ops : List Op)
      (s1 : NdpState), runOps (initialState cfg desync) ops = .ok s1 →
      s1.defaultRouters.length ≤ MaxDiscoveredDefaultRouters ∧
      s1.onLinkPrefixes.length ≤ MaxDiscoveredOnLinkPrefixes) ∧
    (∀ (env : Env) (s : NdpState) (ip : Address) (ra : RouterAdvert),
      mapLookup s.defaultRouters ip = none →
      ra.routerLifetime ≠ 0 →
      ra.options = [] →
      ra.managedAddrConfFlag = false →
      ra.otherConfFlag = false →
      s.dhcpv6Configuration = DHCPv6NoConfiguration →
      ¬ s.defaultRouters.length < MaxDiscoveredDefaultRouters →
      handleRA env s ip ra = .ok (s, [])) ∧
    (∀ (env : Env) (s : NdpState) (pi : PrefixInfo),
      mapLookup s.onLinkPrefixes pi.subnet = none →
      pi.validLifetime ≠ 0 →
      ¬ s.onLinkPrefixes.length < MaxDiscoveredOnLinkPrefixes →
      handleOnLinkPrefixInformation env s pi = (s, [])) := by
  refine ⟨?_, ?_, ?_⟩
  · intro cfg desync ops s1 hok
    exact runOps_tables ops (initialState cfg desync) s1 hok
      (initialState_tables cfg desync)
  · intro env s ip ra hlk hrl hopts hm ho hd hlen
    unfold handleRA
    split_ifs with hg
    · rfl
    · have h1 : handleRADHCPv6 env s ra = (s, []) := by
        simp [handleRADHCPv6, hm, ho, hd]
      have h2 : handleRADefaultRouter env s ip ra.routerLifetime = (s, []) := by
        simp [handleRADefaultRouter, hlk, hrl, hlen]
      simp [h1, h2, hopts, handleRAOptions]
  · intro env s pi hlk hvl hlen
    simp [handleOnLinkPrefixInformation, hlk, hvl, hlen]

/-- Witness for C4 at concrete inputs: the empty operation sequence from
the default initial state keeps both tables bounded; with both tables
full, an RA from the unknown router 20 and a PI for the unknown on-link
prefix 200/64, each with non-zero lifetime, change nothing and emit no
events. -/
theorem c4_bounded_tables_witness :
    runOps (initialState DefaultNDPConfigurations 0) [] =
      .ok (initialState DefaultNDPConfigurations 0) ∧
    (initialState DefaultNDPConfigurations 0).defaultRouters.length ≤
      MaxDiscoveredDefaultRouters ∧
    (initialState DefaultNDPConfigurations 0).onLinkPrefixes.length ≤
      MaxDiscoveredOnLinkPrefixes ∧
    handleRA sampleEnv fullTablesState 20 eleventhRouterRA =
      .ok (fullTablesState, []) ∧
    handleOnLinkPrefixInformation sampleEnv fullTablesState eleventhOnLinkPI =
      (fullTablesState, []) :=
  ⟨rfl,
   (c4_bounded_tables.1 DefaultNDPConfigurations 0 [] _ rfl).1,
   (c4_bounded_tables.1 DefaultNDPConfigurations 0 [] _ rfl).2,
   c4_bounded_tables.2.1 sampleEnv fullTablesState 20 eleventhRouterRA
     rfl (by decide) rfl rfl rfl rfl (by decide),
   c4_bounded_tables.2.2 sampleEnv fullTablesState eleventhOnLinkPI
     rfl (by decide) (by decide)⟩

end NDP
